import Mathlib

/-!
Verification development for graphterm's `lineterm.py` (line-oriented
pseudo-tty emulator).  The Python source is shallowly embedded: classes
become structures, methods become pure functions that return the updated
state, Python exceptions become an `Except PyErr` result, and the
`screen_callback` sink becomes an append-only event log inside the state.

Python byte/unicode strings that undergo per-character arithmetic
(screen cells, dumped rows, escape buffers, pagelet payloads) are
embedded as `List Nat` of code points; auxiliary labels that are only
stored and compared (directories, blob ids, css classes) stay `String`.
Python integers are `Int` where the source can drive a value negative
(cursor coordinates, scroll region), and `Nat` for counters the source
keeps nonnegative.  Python `//` and `%` are `Int.ediv`/`Int.emod`
(floor semantics on the positive divisors used here).
-/

namespace GT

/-- A Python byte/unicode string, as a list of code points. -/
abbrev UStr := List Nat

/-- Python exceptions that the embedded code paths can raise. -/
inductive PyErr where
  | indexError
  | assertionError
  | nameError
  | keyError
  | zeroDivisionError
deriving DecidableEq, Repr

/-- lineterm.py:45 -/
def MAX_SCROLL_LINES : Nat := 500

/-- lineterm.py:47 -/
def MAX_PAGELET_BYTES : Nat := 1000000

/-- lineterm.py:98 -/
def STYLE4 : Nat := 4

/-- lineterm.py:99 -/
def UNI24 : Nat := 24

/-- lineterm.py:100 -/
def UNIMASK : Nat := 0xffffff

/-- ScreenBuf.__init__ with the default colors `fg_color=0, bg_color=7`
(the only colors the file ever constructs a ScreenBuf with):
`default_style = (bg_color << STYLE4) | fg_color`. -/
def default_style : Nat := (7 <<< STYLE4) ||| 0

/-- `inverse_style = (fg_color << STYLE4) | bg_color` -/
def inverse_style : Nat := (0 <<< STYLE4) ||| 7

/-- `self.bold_style = 0x08` -/
def bold_style : Nat := 0x08

/-- `self.default_nul = self.default_style << UNI24` -/
def default_nul : Nat := default_style <<< UNI24

/-- Python slice index resolution: negative indices count from the end,
and everything is clamped into `[0, len]`. -/
def pyIdx (len : Nat) (i : Int) : Nat :=
  if i < 0 then (len + i).toNat else min i.toNat len

/-- Python `l[a:b]`. -/
def pySlice (l : List Nat) (a b : Int) : List Nat :=
  let s := pyIdx l.length a
  let t := pyIdx l.length b
  (l.drop s).take (t - s)

/-- Python slice assignment `l[a:b] = repl` (the replaced range may have
a different length than `repl`, as with Python lists/arrays). -/
def pySetSlice (l : List Nat) (a b : Int) (repl : List Nat) : List Nat :=
  let s := pyIdx l.length a
  let t := pyIdx l.length b
  l.take s ++ repl ++ l.drop (max s t)

/-- Same as `pySetSlice` for the per-row metadata list. -/
def pySetSliceMeta (l : List (Option (String × Nat))) (a b : Int)
    (repl : List (Option (String × Nat))) : List (Option (String × Nat)) :=
  let s := pyIdx l.length a
  let t := pyIdx l.length b
  l.take s ++ repl ++ l.drop (max s t)

/-- Python `l[a:b]` for metadata lists. -/
def pySliceMeta (l : List (Option (String × Nat))) (a b : Int) :
    List (Option (String × Nat)) :=
  let s := pyIdx l.length a
  let t := pyIdx l.length b
  (l.drop s).take (t - s)

/-- `dump` (lineterm.py:114), per-code-point part: mask to `UNIMASK`
(utf-8 encoding mode) and replace non-NUL, non-newline control
characters by space. -/
def dump_code (x : Nat) : Nat :=
  let u := x.land UNIMASK
  if u < 32 ∧ u ≠ 0 ∧ u ≠ 10 then 32 else u

/-- `uclean` (lineterm.py:126): optionally trim trailing NULs, then
replace NULs with spaces and DELs (0x7f) with `?` (0x3f).  The
`encoded` flag of the source only re-encodes to utf-8 bytes and is
dropped here (strings stay as code-point lists). -/
def uclean (us : UStr) (trim : Bool) : UStr :=
  let us2 := if trim then (us.reverse.dropWhile (· = 0)).reverse else us
  us2.map (fun c => if c = 0 then 32 else if c = 0x7f then 0x3f else c)

/-- `dump` (lineterm.py:114) for ENCODING = "utf-8". -/
def dump (data : List Nat) (trim : Bool) : UStr :=
  uclean (data.map dump_code) trim

/-- Python `haystack.find(needle)` returning an index option
(the source checks `>= 0`). -/
def findSub : List Nat → List Nat → Option Nat
  | hay, needle =>
    if needle.isPrefixOf hay then some 0
    else
      match hay with
      | [] => none
      | _ :: t => (findSub t needle).map (· + 1)

/-- The `(prompt_prefix, prompt_suffix)` delimiter pair; `none` models
the empty (falsy) `pdelim` list. -/
abbrev Pdelim := Option (UStr × UStr)

/-- Row metadata `(current_directory, continuation_depth)`
(lineterm.py:106-108). -/
abbrev RowMeta := Option (String × Nat)

/-- `prompt_offset` (lineterm.py:151). -/
def prompt_offset (line : UStr) (pdelim : Pdelim) (meta : RowMeta) : Nat :=
  match pdelim with
  | none => 0
  | some (pd0, pd1) =>
    if ((match meta with
         | some m => decide (m.2 = 0)
         | none => false) || (decide (pd0 ≠ []) && pd0.isPrefixOf line)) then
      match findSub line pd1 with
      | some e => e + pd1.length
      | none => 0
    else 0

/-- A `pagelet_id` string `"%d-%d" % (buf_note, current_scroll_count)`
(lineterm.py:550).  The two decimal components determine and are
determined by the dash-separated string, so the id is embedded as the
pair of numbers. -/
structure PageletId where
  note : Nat
  count : Nat
deriving DecidableEq, Repr

/-- The options dictionary of a scroll entry's `params`
(`row_params[JOPTS]`).  The dictionary keys the file reads are embedded
as fields; boolean fields model Python truthiness of the stored value. -/
structure ScrollOpts where
  add_class : String
  pagelet_id : Option PageletId
  blob : Option String
  overwrite : Bool
  form_input : Bool
deriving DecidableEq, Repr

/-- An all-absent options dictionary `{}`. -/
def ScrollOpts.empty : ScrollOpts :=
  { add_class := "", pagelet_id := none, blob := none,
    overwrite := false, form_input := false }

/-- One scroll line `[entry_index, offset, dir, params, line, markup]`
(lineterm.py:72-81); `params = [ptype, opts]`. -/
structure ScrollLine where
  index : Nat
  offset : Nat
  dir : String
  ptype : String
  opts : ScrollOpts
  line : UStr
  markup : Option UStr
deriving DecidableEq, Repr

/-- `Screen` (lineterm.py:695): width × height cells plus per-row
metadata.  `make_copy` copies the lists, which in this pure embedding
is the identity. -/
structure Screen where
  width : Nat
  height : Nat
  data : List Nat
  meta : List RowMeta
deriving DecidableEq, Repr

/-- `Screen(width, height)` with zeroed data (lineterm.py:696-700). -/
def Screen.blank (width height : Nat) : Screen :=
  { width := width, height := height,
    data := List.replicate (width * height) 0,
    meta := List.replicate height none }

/-- `ScreenBuf` state (lineterm.py:453-487). -/
structure ScreenBuf where
  pdelim : Pdelim
  pre_offset : Nat
  width : Option Nat
  height : Option Nat
  cursorx : Option Int
  cursory : Option Int
  main_screen : Option Screen
  alt_screen : Option Screen
  entry_index : Nat
  current_scroll_count : Nat
  last_scroll_count : Nat
  scroll_lines : List ScrollLine
  last_blob_id : String
  delete_blob_ids : List String
  full_update : Bool
  cleared_current_dir : Option String
  cleared_last : Bool
  buf_note : Nat
deriving DecidableEq, Repr

/-- `ScreenBuf.__init__` (lineterm.py:454) followed by `clear_buf`. -/
def ScreenBuf.init (pdelim : Pdelim) : ScreenBuf :=
  { pdelim := pdelim,
    pre_offset := (match pdelim with | some (p, _) => p.length | none => 0),
    width := none, height := none, cursorx := none, cursory := none,
    main_screen := none, alt_screen := none,
    entry_index := 0, current_scroll_count := 0, last_scroll_count := 0,
    scroll_lines := [], last_blob_id := "", delete_blob_ids := [],
    full_update := true, cleared_current_dir := none, cleared_last := false,
    buf_note := 0 }

/-- `ScreenBuf.clear_buf` (lineterm.py:482). -/
def ScreenBuf.clear_buf (b : ScreenBuf) : ScreenBuf :=
  { b with last_scroll_count := b.current_scroll_count,
           scroll_lines := [], last_blob_id := "", delete_blob_ids := [],
           full_update := true }

/-- `ScreenBuf.set_buf_note` (lineterm.py:479). -/
def ScreenBuf.set_buf_note (b : ScreenBuf) (n : Nat) : ScreenBuf :=
  { b with buf_note := n }

/-- `ScreenBuf.clear_last_entry` (lineterm.py:489).  The Python
`last_entry_index=None` default and falsy test are modeled by passing 0.
The backward `while` walk collects the maximal trailing run of lines
sharing the last line's `entry_index`. -/
def ScreenBuf.clear_last_entry (b : ScreenBuf) (last_entry_index : Nat) :
    ScreenBuf :=
  if b.scroll_lines = [] ∨ b.entry_index = 0 then b
  else
    match b.scroll_lines.getLast? with
    | none => b
    | some lastLine =>
      if b.entry_index ≠ lastLine.index then b
      else if last_entry_index ≠ 0 ∧ last_entry_index ≠ lastLine.index then b
      else
        let k := (b.scroll_lines.reverse.takeWhile
          (fun l => l.index = lastLine.index)).length
        let n := b.scroll_lines.length - k
        let removed := b.scroll_lines.drop n
        let blobs := removed.filterMap (fun l => l.opts.blob)
        let csc := b.current_scroll_count - k
        { b with
          entry_index := b.entry_index - 1,
          current_scroll_count := csc,
          cleared_last := true,
          cleared_current_dir :=
            (match b.cleared_current_dir with
             | none => some ((removed.head?.map (·.dir)).getD "")
             | some d => some d),
          delete_blob_ids := b.delete_blob_ids ++ blobs,
          scroll_lines := b.scroll_lines.take n,
          last_scroll_count := min b.last_scroll_count csc }

/-- `ScreenBuf.blank_last_entry` (lineterm.py:515): replace the last
entry with a blank pagelet.  The `assert not ...[JOFFSET]` of the source
is an `Except` error. -/
def ScreenBuf.blank_last_entry (b : ScreenBuf) : Except PyErr ScreenBuf :=
  match b.scroll_lines.getLast? with
  | none => .ok b
  | some lastLine =>
    if lastLine.offset ≠ 0 then .error .assertionError
    else
      let newLast : ScrollLine :=
        { lastLine with
          ptype := "pagelet",
          opts := { ScrollOpts.empty with
                    add_class := "",
                    pagelet_id := some ⟨b.buf_note, b.current_scroll_count⟩ },
          line := [], markup := some [] }
      let b := { b with scroll_lines := b.scroll_lines.dropLast ++ [newLast] }
      if 0 < b.current_scroll_count ∧
          b.current_scroll_count ≤ b.last_scroll_count then
        .ok { b with last_scroll_count := b.current_scroll_count - 1 }
      else .ok b

/-- The blob option of a line as a (0- or 1-element) list. -/
def blobList (l : ScrollLine) : List String :=
  match l.opts.blob with
  | some bid => [bid]
  | none => []

/-- The overflow eviction loop of `scroll_buf_up` (lineterm.py:576-581).
Each iteration checks only that the head still carries the evicted
`entry_index`, then pops that head *without* collecting its blob and
pops a second line unconditionally, collecting that one's blob; popping
the second line from an empty list is Python's IndexError. -/
def evictRest (oldIdx : Nat) : List ScrollLine → List String →
    Except PyErr (List ScrollLine × List String)
  | [], acc => .ok ([], acc)
  | l1 :: rest, acc =>
    if l1.index = oldIdx then
      match rest with
      | [] => .error .indexError
      | l2 :: rest2 => evictRest oldIdx rest2 (acc ++ blobList l2)
    else .ok (l1 :: rest, acc)

/-- `command_markup` (lineterm.py:421) renders the prompt span followed
by the marked-up command text.  No claim observes markup contents, so
the token-level path markup of the command suffix (`shplit` plus
per-token spans) is represented by the exception fallback of the source
(`marked_up + line[offset:]`, lineterm.py:426), keeping the same
prompt-then-command shape. -/
def command_markup (entry_index : Nat) (current_dir : String)
    (pre_off off : Nat) (line : UStr) : UStr :=
  let _ := entry_index
  let _ := current_dir
  (line.take off).drop pre_off ++ line.drop off

/-- Prologue of `scroll_buf_up` (lineterm.py:532-547): prompt-line
bookkeeping when `offset` is nonzero, blob bookkeeping when the row is
non-plain. -/
def scrollPrologue (b0 : ScreenBuf) (offset : Nat) (ptype : String)
    (opts0 : ScrollOpts) : ScreenBuf :=
  if offset ≠ 0 then
    let b := { b0 with entry_index := b0.entry_index + 1 }
    let b := if ¬ b.cleared_last then { b with cleared_current_dir := none }
             else b
    { b with cleared_last := false }
  else if ptype ≠ "" then
    let b := if opts0.overwrite ∧ b0.last_blob_id ≠ "" then
        { b0 with
          delete_blob_ids := b0.delete_blob_ids ++ [b0.last_blob_id] }
      else b0
    { b with last_blob_id := opts0.blob.getD "" }
  else b0

/-- `prev_pagelet_opts` (lineterm.py:551): the last line's opts dict
when that line is a `"pagelet"` entry, else the falsy `{}` (modeled as
`none`; the opts dict of a stored line is never the empty dict, since
`add_class` is always set on insertion). -/
def prevPagelet (b : ScreenBuf) : Option ScrollOpts :=
  match b.scroll_lines.getLast? with
  | some l => if l.ptype = "pagelet" then some l.opts else none
  | none => none

/-- `prev_edit_file` (lineterm.py:552). -/
def prevEditFile (b : ScreenBuf) : Bool :=
  match b.scroll_lines.getLast? with
  | some l => decide (l.ptype = "edit_file")
  | none => false

/-- The guard `overwrite and prev_pagelet_opts and
prev_pagelet_opts["pagelet_id"] == cur_pagelet_id` (lineterm.py:555);
a pagelet entry without a `pagelet_id` key would raise KeyError. -/
def owMatch (overwrite : Bool) (prev : Option ScrollOpts)
    (cur : PageletId) : Except PyErr Bool :=
  if overwrite then
    match prev with
    | none => .ok false
    | some popts =>
      match popts.pagelet_id with
      | none => .error .keyError
      | some pid => .ok (decide (pid = cur))
  else .ok false

/-- Overwrite branch of `scroll_buf_up` (lineterm.py:556-563);
`scroll_lines[-1][...] = ...` on an empty list is IndexError. -/
def scrollOverwrite (b1 : ScreenBuf) (current_dir : String) (ptype : String)
    (opts2 : ScrollOpts) (line : UStr) (markup : Option UStr) :
    Except PyErr ScreenBuf :=
  match b1.scroll_lines.getLast? with
  | none => .error .indexError
  | some lastL =>
    let newLast : ScrollLine :=
      { lastL with dir := current_dir, ptype := ptype, opts := opts2,
                   line := line, markup := markup }
    let b2 := { b1 with scroll_lines := b1.scroll_lines.dropLast ++ [newLast] }
    if 0 < b2.current_scroll_count ∧
        b2.current_scroll_count ≤ b2.last_scroll_count then
      .ok { b2 with last_scroll_count := b2.current_scroll_count - 1 }
    else .ok b2

/-- Append branch of `scroll_buf_up` (lineterm.py:565-581): blank a
one-shot edit/form predecessor, append the new line with a fresh
`pagelet_id`, then run the overflow eviction. -/
def scrollAppend (b1 : ScreenBuf) (current_dir : String) (offset : Nat)
    (ptype : String) (opts1 : ScrollOpts) (line : UStr)
    (markup : Option UStr) : Except PyErr ScreenBuf :=
  let blanked : Except PyErr ScreenBuf :=
    if prevEditFile b1 || (((prevPagelet b1).map (·.form_input)).getD false) then
      b1.blank_last_entry
    else .ok b1
  match blanked with
  | .error e => .error e
  | .ok b2 =>
    let b3 := { b2 with current_scroll_count := b2.current_scroll_count + 1 }
    let opts2 := { opts1 with
      pagelet_id := some ⟨b3.buf_note, b3.current_scroll_count⟩ }
    let newLine : ScrollLine :=
      { index := b3.entry_index, offset := offset, dir := current_dir,
        ptype := ptype, opts := opts2, line := line, markup := markup }
    let b4 := { b3 with scroll_lines := b3.scroll_lines ++ [newLine] }
    if b4.scroll_lines.length > MAX_SCROLL_LINES then
      match b4.scroll_lines with
      | [] => .error .indexError
      | old :: rest =>
        match evictRest old.index rest (b4.delete_blob_ids ++ blobList old) with
        | .error e => .error e
        | .ok (lines2, acc2) =>
          .ok { b4 with scroll_lines := lines2, delete_blob_ids := acc2 }
    else .ok b4

/-- `ScreenBuf.scroll_buf_up` (lineterm.py:527), glued from the phases
above, with the source's mutation sequence written as explicit state
passing. -/
def ScreenBuf.scroll_buf_up (b0 : ScreenBuf) (line : UStr) (meta : RowMeta)
    (offset : Nat) (add_class : String) (ptype : String) (opts0 : ScrollOpts)
    (markup0 : Option UStr) : Except PyErr ScreenBuf :=
  let b1 := scrollPrologue b0 offset ptype opts0
  let current_dir : String :=
    if offset ≠ 0 then (match meta with | some m => m.1 | none => "") else ""
  let markup :=
    if offset ≠ 0 then
      some (command_markup b1.entry_index current_dir b1.pre_offset offset line)
    else markup0
  let overwrite : Bool :=
    if offset ≠ 0 then false
    else if ptype ≠ "" then opts0.overwrite else false
  let cur_pagelet_id : PageletId := ⟨b1.buf_note, b1.current_scroll_count⟩
  let opts1 := { opts0 with add_class := add_class }
  match owMatch overwrite (prevPagelet b1) cur_pagelet_id with
  | .error e => .error e
  | .ok true =>
    scrollOverwrite b1 current_dir ptype
      { opts1 with pagelet_id := some cur_pagelet_id } line markup
  | .ok false =>
    scrollAppend b1 current_dir offset ptype opts1 line markup

/-- Row slice `data[width*j : width*(j+1)]` used by `ScreenBuf.update`. -/
def rowSlice (data : List Nat) (w j : Nat) : List Nat :=
  (data.drop (w * j)).take w

/-- Loop body of `ScreenBuf.dumprichtext` (lineterm.py:660-684):
group consecutive cells by style byte, mapping control characters to
spaces; style tags are `bold` and `inverse`. -/
def richtext_aux : List Nat → Nat → List String → UStr →
    List (List String × UStr) → Bool → List (List String × UStr)
  | [], _, style_list, span, acc, trim =>
    let cspan := uclean span trim
    if cspan ≠ [] then acc ++ [(style_list, cspan)] else acc
  | scode :: rest, span_style, style_list, span, acc, trim =>
    let char_style := scode >>> UNI24
    let u := scode.land UNIMASK
    let ucode := if u < 32 ∧ u ≠ 0 ∧ u ≠ 10 then 32 else u
    if span_style ≠ char_style then
      let acc2 :=
        if span ≠ [] then acc ++ [(style_list, uclean span false)] else acc
      let style2 :=
        (if char_style.land bold_style ≠ 0 then ["bold"] else []) ++
        (if char_style.land 0x77 = inverse_style then ["inverse"] else [])
      richtext_aux rest char_style style2 [ucode] acc2 trim
    else
      richtext_aux rest span_style style_list (span ++ [ucode]) acc trim

/-- `ScreenBuf.dumprichtext` (lineterm.py:654). -/
def dumprichtext (data : List Nat) (trim : Bool) :
    List (List String × UStr) :=
  if data.all (fun x => x >>> UNI24 = default_style) then
    [([], dump data trim)]
  else
    richtext_aux data default_style [] [] [] trim

/-- One element of `update_rows`
(`[j, offset, "", ["", opts], richtext, None]`, lineterm.py:635);
the only variable parts are embedded. -/
structure UpdateRow where
  j : Nat
  offset : Nat
  note_prompt : Bool
  rich : List (List String × UStr)
deriving DecidableEq, Repr

/-- The `(full_update, update_rows, update_scroll)` triple returned by
`ScreenBuf.update`. -/
structure UpdateResult where
  full_update : Bool
  update_rows : List UpdateRow
  update_scroll : List ScrollLine
deriving DecidableEq, Repr

/-- `ScreenBuf.update` (lineterm.py:587): row-delta computation plus
scroll delta, refreshing the shadow screens. -/
def ScreenBuf.update (b0 : ScreenBuf) (active_rows width height : Nat)
    (cursorx cursory : Int) (main_screen : Screen) (alt_screen : Option Screen)
    (pdelim : Pdelim) (note_prompts : List UStr) (reconnecting : Bool) :
    ScreenBuf × UpdateResult :=
  let fu0 := b0.full_update || reconnecting
  let resize := ¬ reconnecting ∧ (some width ≠ b0.width ∨ some height ≠ b0.height)
  let b := if resize then { b0 with width := some width, height := some height }
           else b0
  let fu1 := if resize then true else fu0
  let fu2 := if (alt_screen.isSome && !b.alt_screen.isSome) ||
                (!alt_screen.isSome && b.alt_screen.isSome) then true else fu1
  let screen := match alt_screen with
    | some a => a
    | none => main_screen
  let old_screen := match alt_screen with
    | some _ => b.alt_screen
    | none => b.main_screen
  let row_count := match alt_screen with
    | some _ => height
    | none => active_rows
  let cursor_moved := decide (some cursorx ≠ b.cursorx) ||
                      decide (some cursory ≠ b.cursory)
  let update_rows := (List.range row_count).filterMap (fun j =>
    let new_row := rowSlice screen.data width j
    let row_upd := fu2 || old_screen.isNone ||
      (match old_screen with
       | some old => decide (new_row ≠ rowSlice old.data width j)
       | none => false)
    if row_upd || (cursor_moved &&
        (decide (cursory = (j : Int)) || decide (b.cursory = some (j : Int)))) then
      let new_row_str := dump new_row false
      let offset := prompt_offset new_row_str pdelim (screen.meta.getD j none)
      let note_prompt := decide (note_prompts ≠ []) && decide (offset = 0) &&
        (note_prompts.take 1).any (fun p => p.isPrefixOf new_row_str)
      some { j := j, offset := offset, note_prompt := note_prompt,
             rich := dumprichtext new_row true }
    else none)
  let update_scroll :=
    if reconnecting then b.scroll_lines
    else if b.last_scroll_count < b.current_scroll_count then
      b.scroll_lines.drop
        (b.scroll_lines.length - (b.current_scroll_count - b.last_scroll_count))
    else []
  let b2 :=
    if ¬ reconnecting then
      { b with last_scroll_count := b.current_scroll_count,
               full_update := false,
               cursorx := some cursorx, cursory := some cursory,
               main_screen := some main_screen, alt_screen := alt_screen }
    else b
  (b2, { full_update := fu2, update_rows := update_rows,
         update_scroll := update_scroll })

/-- `ScreenBuf.append_scroll` (lineterm.py:583). -/
def ScreenBuf.append_scroll (b : ScreenBuf) (lines : List ScrollLine) :
    ScreenBuf :=
  { b with current_scroll_count := b.current_scroll_count + lines.length,
           scroll_lines := b.scroll_lines ++ lines }

/-- After a non-reconnecting `ScreenBuf.update`, the shadow state records
the arguments: dimensions, cursor, screens, and the advanced scroll
count, with `full_update` cleared. -/
theorem update_post_fields (b : ScreenBuf) (ar w h : Nat) (cx cy : Int)
    (ms : Screen) (altS : Option Screen) (pd : Pdelim) (np : List UStr) :
    (b.update ar w h cx cy ms altS pd np false).1.width = some w ∧
    (b.update ar w h cx cy ms altS pd np false).1.height = some h ∧
    (b.update ar w h cx cy ms altS pd np false).1.full_update = false ∧
    (b.update ar w h cx cy ms altS pd np false).1.cursorx = some cx ∧
    (b.update ar w h cx cy ms altS pd np false).1.cursory = some cy ∧
    (b.update ar w h cx cy ms altS pd np false).1.main_screen = some ms ∧
    (b.update ar w h cx cy ms altS pd np false).1.alt_screen = altS ∧
    (b.update ar w h cx cy ms altS pd np false).1.last_scroll_count =
      (b.update ar w h cx cy ms altS pd np false).1.current_scroll_count ∧
    (b.update ar w h cx cy ms altS pd np false).1.scroll_lines =
      b.scroll_lines ∧
    (b.update ar w h cx cy ms altS pd np false).1.delete_blob_ids =
      b.delete_blob_ids := by
  by_cases hres : (some w ≠ b.width ∨ some h ≠ b.height)
  · refine ⟨?_, ?_, ?_, ?_, ?_, ?_, ?_, ?_, ?_, ?_⟩ <;>
      simp [ScreenBuf.update, hres]
  · push_neg at hres
    refine ⟨?_, ?_, ?_, ?_, ?_, ?_, ?_, ?_, ?_, ?_⟩ <;>
      simp [ScreenBuf.update, hres.1.symm, hres.2.symm]

/-- If a ScreenBuf's shadow already matches the arguments (as it does
right after a non-reconnecting `update`), a further `update` with the
same arguments yields empty `update_rows` and empty `update_scroll`. -/
theorem update_empty_of_matching (b1 : ScreenBuf) (ar w h : Nat)
    (cx cy : Int) (ms : Screen) (altS : Option Screen) (pd : Pdelim)
    (np : List UStr)
    (hw : b1.width = some w) (hh : b1.height = some h)
    (hf : b1.full_update = false) (hcx : b1.cursorx = some cx)
    (hcy : b1.cursory = some cy) (hms : b1.main_screen = some ms)
    (halt : b1.alt_screen = altS)
    (hl : b1.last_scroll_count = b1.current_scroll_count) :
    (b1.update ar w h cx cy ms altS pd np false).2.update_rows = [] ∧
    (b1.update ar w h cx cy ms altS pd np false).2.update_scroll = [] := by
  simp only [ScreenBuf.update, hw, hh, hf, hcx, hcy, hms, halt, hl]
  cases altS <;> simp_all [List.filterMap_eq_nil_iff]

/-- C6: for every ScreenBuf state, calling `ScreenBuf.update` twice in
succession with identical arguments (same screens, cursor, dimensions;
reconnecting false) and no intervening mutation yields empty
`update_rows` and empty `update_scroll` on the second call. -/
theorem C6_update_twice_empty (b : ScreenBuf) (ar w h : Nat) (cx cy : Int)
    (ms : Screen) (altS : Option Screen) (pd : Pdelim) (np : List UStr) :
    (((b.update ar w h cx cy ms altS pd np false).1.update
        ar w h cx cy ms altS pd np false).2.update_rows = []) ∧
    (((b.update ar w h cx cy ms altS pd np false).1.update
        ar w h cx cy ms altS pd np false).2.update_scroll = []) := by
  obtain ⟨h1, h2, h3, h4, h5, h6, h7, h8, -⟩ :=
    update_post_fields b ar w h cx cy ms altS pd np
  exact update_empty_of_matching _ ar w h cx cy ms altS pd np
    h1 h2 h3 h4 h5 h6 h7 h8

/-- A pagelet options dict carrying only a `pagelet_id`
(plus the always-set `add_class`). -/
def mkPageletOpts (pid : PageletId) : ScrollOpts :=
  { add_class := "", pagelet_id := some pid, blob := none,
    overwrite := false, form_input := false }

/-- ScreenBuf reached by appending two validated pagelets (ids `0-1`
and `0-2`) with no `update` call in between, so that
`last_scroll_count = 0` while `current_scroll_count = 2`. -/
def c5buf : ScreenBuf :=
  { ScreenBuf.init none with
    current_scroll_count := 2,
    last_scroll_count := 0,
    scroll_lines :=
      [ { index := 0, offset := 0, dir := "", ptype := "pagelet",
          opts := mkPageletOpts ⟨0, 1⟩, line := [], markup := none },
        { index := 0, offset := 0, dir := "", ptype := "pagelet",
          opts := mkPageletOpts ⟨0, 2⟩, line := [], markup := none } ] }

/-- Options of an overwriting pagelet row. -/
def c5opts : ScrollOpts :=
  { add_class := "", pagelet_id := none, blob := none,
    overwrite := true, form_input := false }

/-- C5 counterexample: on `c5buf` the overwrite conditions of the claim
hold (`overwrite` option set, last entry a pagelet with id
`{buf_note}-{current_scroll_count}` = `0-2`), and the entry is indeed
replaced in place (2 lines, count 2), but `last_scroll_count` stays `0`
instead of being set to `current_scroll_count - 1 = 1` as the claim
states: the source only rewinds when
`last_scroll_count >= current_scroll_count` (lineterm.py:562). -/
theorem C5_counterexample :
    (c5buf.scroll_buf_up [120] none 0 "" "pagelet" c5opts none).map
      (fun b => (b.scroll_lines.length, b.current_scroll_count,
                 b.last_scroll_count)) = .ok (2, 2, 0) := by
  rfl

/-- With `offset = 0` the prologue of `scroll_buf_up` leaves the scroll
history, its counters, the buffer note and the entry index untouched
(it only touches blob bookkeeping). -/
theorem scrollPrologue_zero (b0 : ScreenBuf) (pt : String)
    (opts0 : ScrollOpts) :
    (scrollPrologue b0 0 pt opts0).scroll_lines = b0.scroll_lines ∧
    (scrollPrologue b0 0 pt opts0).current_scroll_count =
      b0.current_scroll_count ∧
    (scrollPrologue b0 0 pt opts0).last_scroll_count =
      b0.last_scroll_count ∧
    (scrollPrologue b0 0 pt opts0).buf_note = b0.buf_note ∧
    (scrollPrologue b0 0 pt opts0).entry_index = b0.entry_index := by
  refine ⟨?_, ?_, ?_, ?_, ?_⟩ <;>
    (unfold scrollPrologue; split_ifs <;> simp_all)

/-- With `offset = 0`, nonempty `ptype`, the `overwrite` option set and
a matching previous pagelet, `scroll_buf_up` reduces to its overwrite
branch. -/
theorem scroll_buf_up_eq_overwrite (b : ScreenBuf) (line : UStr)
    (meta : RowMeta) (ac pt : String) (opts0 : ScrollOpts) (mk : Option UStr)
    (lastL : ScrollLine)
    (hpt : pt ≠ "") (hlast : b.scroll_lines.getLast? = some lastL)
    (hptype : lastL.ptype = "pagelet")
    (hid : lastL.opts.pagelet_id = some ⟨b.buf_note, b.current_scroll_count⟩)
    (hov : opts0.overwrite = true) :
    b.scroll_buf_up line meta 0 ac pt opts0 mk =
      scrollOverwrite (scrollPrologue b 0 pt opts0) "" pt
        { opts0 with
          add_class := ac,
          pagelet_id := some ⟨(scrollPrologue b 0 pt opts0).buf_note,
            (scrollPrologue b 0 pt opts0).current_scroll_count⟩ }
        line mk := by
  obtain ⟨hl1, hl2, hl3, hl4, hl5⟩ := scrollPrologue_zero b pt opts0
  have hprev : prevPagelet (scrollPrologue b 0 pt opts0) = some lastL.opts := by
    unfold prevPagelet
    rw [hl1, hlast]
    simp [hptype]
  have hmatch : owMatch
      (if (0 : Nat) ≠ 0 then false
       else if pt ≠ "" then opts0.overwrite else false)
      (prevPagelet (scrollPrologue b 0 pt opts0))
      ⟨(scrollPrologue b 0 pt opts0).buf_note,
       (scrollPrologue b 0 pt opts0).current_scroll_count⟩ = .ok true := by
    rw [hprev]
    unfold owMatch
    simp [hpt, hov, hid, hl2, hl4]
  simp only [ScreenBuf.scroll_buf_up]
  rw [hmatch]
  simp

/-- With `offset = 0`, nonempty `ptype` and the `overwrite` option
absent, `scroll_buf_up` reduces to its append branch. -/
theorem scroll_buf_up_eq_append (b : ScreenBuf) (line : UStr)
    (meta : RowMeta) (ac pt : String) (opts0 : ScrollOpts) (mk : Option UStr)
    (hpt : pt ≠ "") (hov : opts0.overwrite = false) :
    b.scroll_buf_up line meta 0 ac pt opts0 mk =
      scrollAppend (scrollPrologue b 0 pt opts0) "" 0 pt
        { opts0 with add_class := ac } line mk := by
  have hmatch : owMatch
      (if (0 : Nat) ≠ 0 then false
       else if pt ≠ "" then opts0.overwrite else false)
      (prevPagelet (scrollPrologue b 0 pt opts0))
      ⟨(scrollPrologue b 0 pt opts0).buf_note,
       (scrollPrologue b 0 pt opts0).current_scroll_count⟩ = .ok false := by
    unfold owMatch
    simp [hpt, hov]
  simp only [ScreenBuf.scroll_buf_up]
  rw [hmatch]
  simp

/-- C5 (amended): with `offset = 0` and a non-plain `ptype`, when the
`overwrite` option is set and the last scroll entry is a pagelet whose
id equals `{buf_note}-{current_scroll_count}`, the last entry is
replaced in place (`scroll_lines` length and `current_scroll_count`
unchanged, earlier entries untouched) and `last_scroll_count` is
rewound to `current_scroll_count - 1` exactly when it was at least
`current_scroll_count` (with the count positive), staying unchanged —
already low enough for the delta to re-emit — otherwise; when the
`overwrite` option is absent (and the previous entry needs no blanking
and no overflow occurs) a new entry is appended instead. -/
theorem C5_overwrite_replaces_in_place (b : ScreenBuf) (line : UStr)
    (meta : RowMeta) (ac pt : String) (opts0 : ScrollOpts) (mk : Option UStr)
    (lastL : ScrollLine)
    (hpt : pt ≠ "")
    (hlast : b.scroll_lines.getLast? = some lastL) :
    ((lastL.ptype = "pagelet" ∧
      lastL.opts.pagelet_id = some ⟨b.buf_note, b.current_scroll_count⟩ ∧
      opts0.overwrite = true) →
      ∃ b', b.scroll_buf_up line meta 0 ac pt opts0 mk = .ok b' ∧
        b'.scroll_lines.length = b.scroll_lines.length ∧
        b'.current_scroll_count = b.current_scroll_count ∧
        b'.scroll_lines.dropLast = b.scroll_lines.dropLast ∧
        (b'.scroll_lines.getLast?.map (·.line)) = some line ∧
        b'.last_scroll_count =
          (if 0 < b.current_scroll_count ∧
              b.current_scroll_count ≤ b.last_scroll_count then
            b.current_scroll_count - 1
          else b.last_scroll_count)) ∧
    ((opts0.overwrite = false ∧ lastL.ptype ≠ "edit_file" ∧
      lastL.opts.form_input = false ∧
      b.scroll_lines.length < MAX_SCROLL_LINES) →
      ∃ b', b.scroll_buf_up line meta 0 ac pt opts0 mk = .ok b' ∧
        b'.current_scroll_count = b.current_scroll_count + 1 ∧
        b'.scroll_lines.length = b.scroll_lines.length + 1 ∧
        (b'.scroll_lines.getLast?.map (fun l => (l.line, l.opts.pagelet_id)))
          = some (line, some ⟨b.buf_note, b.current_scroll_count + 1⟩)) := by
  have hne : b.scroll_lines ≠ [] := by
    intro h0
    rw [h0] at hlast
    simp at hlast
  obtain ⟨hl1, hl2, hl3, hl4, hl5⟩ := scrollPrologue_zero b pt opts0
  constructor
  · rintro ⟨hptype, hid, hov⟩
    have hkey := scroll_buf_up_eq_overwrite b line meta ac pt opts0 mk lastL
      hpt hlast hptype hid hov
    rw [hkey]
    unfold scrollOverwrite
    rw [hl1, hlast]
    have hpos := List.length_pos.mpr hne
    dsimp only
    simp only [hl1, hl2, hl3, hl4, hl5]
    split_ifs with hcond
    · refine ⟨_, rfl, ?_, ?_, ?_, ?_, ?_⟩ <;>
        simp [List.dropLast_concat, List.getLast?_concat]
      omega
    · refine ⟨_, rfl, ?_, ?_, ?_, ?_, ?_⟩ <;>
        simp [List.dropLast_concat, List.getLast?_concat]
      omega
  · rintro ⟨hov, hedit, hform, hlen⟩
    have hkey := scroll_buf_up_eq_append b line meta ac pt opts0 mk hpt hov
    rw [hkey]
    unfold scrollAppend
    have hprevE : prevEditFile (scrollPrologue b 0 pt opts0) = false := by
      unfold prevEditFile
      rw [hl1, hlast]
      simp [hedit]
    have hprevF : (((prevPagelet (scrollPrologue b 0 pt opts0)).map
        (·.form_input)).getD false) = false := by
      unfold prevPagelet
      rw [hl1, hlast]
      by_cases hp : lastL.ptype = "pagelet" <;> simp [hp, hform]
    rw [hprevE, hprevF]
    simp only [Bool.or_self, Bool.false_eq_true, if_false]
    rw [if_neg (by
      simp only [List.length_append, List.length_cons, List.length_nil, hl1]
      omega)]
    exact ⟨_, rfl, by simp [hl2], by simp [hl1],
      by simp [List.getLast?_concat, hl2, hl4]⟩

/-- The last line of `c5buf`. -/
def c5last : ScrollLine :=
  { index := 0, offset := 0, dir := "", ptype := "pagelet",
    opts := mkPageletOpts ⟨0, 2⟩, line := [], markup := none }

/-- Witness for `C5_overwrite_replaces_in_place` at the concrete state
`c5buf`: the hypotheses hold and the overwrite leaves
`current_scroll_count` unchanged. -/
theorem C5_overwrite_replaces_in_place_witness :
    (("pagelet" : String) ≠ "" ∧
      c5buf.scroll_lines.getLast? = some c5last) ∧
    (c5buf.scroll_buf_up [] none 0 "" "pagelet" c5opts none).map
      (fun b => b.current_scroll_count) = .ok c5buf.current_scroll_count := by
  refine ⟨⟨by decide, rfl⟩, ?_⟩
  obtain ⟨h1, -⟩ := C5_overwrite_replaces_in_place c5buf [] none "" "pagelet"
    c5opts none c5last (by decide) rfl
  obtain ⟨b', hb, -, hcur, -, -, -⟩ := h1 ⟨rfl, rfl, rfl⟩
  rw [hb]
  exact congrArg Except.ok hcur

/-- A plain scroll line of entry group 1 without a blob. -/
def c2line1 : ScrollLine :=
  { index := 1, offset := 2, dir := "", ptype := "",
    opts := ScrollOpts.empty, line := [], markup := none }

/-- A pagelet scroll line of entry group 1 owning blob `"b1"`. -/
def c2line2 : ScrollLine :=
  { index := 1, offset := 0, dir := "", ptype := "pagelet",
    opts := { ScrollOpts.empty with
              pagelet_id := some ⟨0, 2⟩,
              blob := some "b1" },
    line := [], markup := none }

/-- A plain scroll line of entry group 2. -/
def c2rest : ScrollLine :=
  { index := 2, offset := 0, dir := "", ptype := "",
    opts := ScrollOpts.empty, line := [], markup := none }

/-- A full scroll buffer (500 lines): entry group 1 holds two rows, the
second of which owns blob `"b1"`; entry group 2 holds the remaining 498
rows. -/
def c2buf : ScreenBuf :=
  { ScreenBuf.init none with
    entry_index := 2, current_scroll_count := 500, last_scroll_count := 500,
    scroll_lines := c2line1 :: c2line2 :: List.replicate 498 c2rest }

set_option maxRecDepth 100000 in
/-- C2 failing input: appending one plain row to the full `c2buf`
triggers the overflow eviction.  The claim requires removal of exactly
the two rows of entry group 1 (leaving 499 rows) with blob `"b1"`
collected into `delete_blob_ids`.  The code (lineterm.py:576-581) pops
the group's second row without collecting its blob and then pops a row
of entry group 2 as well: 498 rows remain, one entry-2 row was lost,
and `delete_blob_ids` stays empty. -/
theorem C2_failing_input_eval :
    (c2buf.scroll_buf_up [] none 0 "" "" ScrollOpts.empty none).map
      (fun b => (b.scroll_lines.length, b.delete_blob_ids,
        b.scroll_lines.countP (fun l => decide (l.index = 1)))) =
      .ok (498, ([] : List String), 0) := by
  rfl

/-- The operation sequence for the C9 counterexample: a prompt line and
a pagelet (which receives id `0-2`), then `clear_last_entry` (which
rewinds both `entry_index` and `current_scroll_count`), then another
prompt line and a second, different pagelet (which receives the same id
`0-2` again). -/
def c9seq : Except PyErr (Option PageletId × Option PageletId) := do
  let b1 ← (ScreenBuf.init none).scroll_buf_up [36, 32, 97] (some ("/h", 0)) 2
    "" "" ScrollOpts.empty none
  let b2 ← b1.scroll_buf_up [65] none 0 "" "pagelet" ScrollOpts.empty none
  let idA := b2.scroll_lines.getLast?.bind (fun l => l.opts.pagelet_id)
  let b3 := b2.clear_last_entry 0
  let b4 ← b3.scroll_buf_up [36, 32, 98] (some ("/h", 0)) 2
    "" "" ScrollOpts.empty none
  let b5 ← b4.scroll_buf_up [66] none 0 "" "pagelet" ScrollOpts.empty none
  let idB := b5.scroll_lines.getLast?.bind (fun l => l.opts.pagelet_id)
  return (idA, idB)

/-- C9 counterexample: two distinct pagelet entries (payloads `A` and
`B`) created in one ScreenBuf lifetime are both assigned pagelet id
`0-2`, because the intervening `clear_last_entry` rewinds
`current_scroll_count` (lineterm.py:501), so ids are reused. -/
theorem C9_counterexample : c9seq = .ok (some ⟨0, 2⟩, some ⟨0, 2⟩) := by
  rfl

/-- The id-count of a scroll line (0 when the line has no id). -/
def lineIdNum (l : ScrollLine) : Nat :=
  (l.opts.pagelet_id.map (fun p => p.count)).getD 0

/-- Invariant backing the pagelet-id uniqueness property: every stored
line carries id `{buf_note}-{k}` with `k ≤ current_scroll_count`, and
the id counts of the stored lines are strictly increasing. -/
def goodIds (b : ScreenBuf) : Prop :=
  (∀ l ∈ b.scroll_lines, ∃ k, k ≤ b.current_scroll_count ∧
      l.opts.pagelet_id = some ⟨b.buf_note, k⟩) ∧
  (b.scroll_lines.map lineIdNum).Chain' (· < ·)

/-- The eviction loop only removes lines from the front: its result is
a suffix (hence sublist) of its input. -/
theorem evictRest_sublist (oldIdx : Nat) : ∀ (l : List ScrollLine)
    (acc : List String) (l2 : List ScrollLine) (acc2 : List String),
    evictRest oldIdx l acc = .ok (l2, acc2) → l2.Sublist l
  | [], acc, l2, acc2, h => by
    unfold evictRest at h
    simp at h
    simp [h.1]
  | [l1], acc, l2, acc2, h => by
    unfold evictRest at h
    by_cases h1 : l1.index = oldIdx
    · rw [if_pos h1] at h
      simp at h
    · rw [if_neg h1] at h
      simp at h
      simp [h.1]
  | l1 :: lx :: rest2, acc, l2, acc2, h => by
    unfold evictRest at h
    by_cases h1 : l1.index = oldIdx
    · rw [if_pos h1] at h
      have hsub := evictRest_sublist oldIdx rest2 _ _ _ h
      exact hsub.trans ((List.sublist_cons_self lx rest2).trans
        (List.sublist_cons_self l1 (lx :: rest2)))
    · rw [if_neg h1] at h
      simp at h
      simp [h.1]

/-- Replacing the last line of a `goodIds` buffer with a line whose id
is `{buf_note}-{current_scroll_count}` preserves the invariant's two
clauses. -/
theorem goodIds_replace_last (b : ScreenBuf) (hg : goodIds b)
    (lastL : ScrollLine) (heq : b.scroll_lines.getLast? = some lastL)
    (x : ScrollLine)
    (hx : x.opts.pagelet_id = some ⟨b.buf_note, b.current_scroll_count⟩) :
    (∀ l ∈ b.scroll_lines.dropLast ++ [x], ∃ k,
        k ≤ b.current_scroll_count ∧
        l.opts.pagelet_id = some ⟨b.buf_note, k⟩) ∧
    ((b.scroll_lines.dropLast ++ [x]).map lineIdNum).Chain' (· < ·) := by
  obtain ⟨hmem, hchain⟩ := hg
  have hdecomp : b.scroll_lines.dropLast ++ [lastL] = b.scroll_lines :=
    List.dropLast_append_getLast? lastL heq
  have hlastmem : lastL ∈ b.scroll_lines := by
    rw [← hdecomp]
    simp
  obtain ⟨klast, hklast, hidlast⟩ := hmem lastL hlastmem
  have hlastnum : lineIdNum lastL = klast := by
    simp [lineIdNum, hidlast]
  constructor
  · intro l hl
    rcases List.mem_append.1 hl with hl | hl
    · exact hmem l (List.mem_of_mem_dropLast hl)
    · rw [List.mem_singleton.1 hl]
      exact ⟨b.current_scroll_count, le_refl _, hx⟩
  · have hchain2 : ((b.scroll_lines.dropLast ++ [lastL]).map lineIdNum).Chain'
        (· < ·) := by rwa [hdecomp]
    rw [List.map_append] at hchain2 ⊢
    rw [List.chain'_append] at hchain2 ⊢
    refine ⟨hchain2.1, by simp, ?_⟩
    intro p hp q hq
    have hq2 : q = b.current_scroll_count := by
      simp [lineIdNum, hx] at hq
      omega
    have := hchain2.2.2 p hp klast (by simp [hlastnum])
    omega

/-- Appending a line with id `{buf_note}-{current_scroll_count + 1}` to
a `goodIds` buffer preserves the invariant's two clauses at the
incremented count. -/
theorem goodIds_append (b : ScreenBuf) (hg : goodIds b) (x : ScrollLine)
    (hx : x.opts.pagelet_id = some ⟨b.buf_note, b.current_scroll_count + 1⟩) :
    (∀ l ∈ b.scroll_lines ++ [x], ∃ k,
        k ≤ b.current_scroll_count + 1 ∧
        l.opts.pagelet_id = some ⟨b.buf_note, k⟩) ∧
    ((b.scroll_lines ++ [x]).map lineIdNum).Chain' (· < ·) := by
  obtain ⟨hmem, hchain⟩ := hg
  constructor
  · intro l hl
    rcases List.mem_append.1 hl with hl | hl
    · obtain ⟨k, hk, hid⟩ := hmem l hl
      exact ⟨k, Nat.le_succ_of_le hk, hid⟩
    · rw [List.mem_singleton.1 hl]
      exact ⟨b.current_scroll_count + 1, le_refl _, hx⟩
  · rw [List.map_append, List.chain'_append]
    refine ⟨hchain, by simp, ?_⟩
    intro p hp q hq
    have hq2 : q = b.current_scroll_count + 1 := by
      simp [lineIdNum, hx] at hq
      omega
    have hpmem : p ∈ b.scroll_lines.map lineIdNum :=
      List.mem_of_mem_getLast? hp
    obtain ⟨l, hl, hlp⟩ := List.mem_map.1 hpmem
    obtain ⟨k, hk, hid⟩ := hmem l hl
    have : p = k := by
      rw [← hlp]
      simp [lineIdNum, hid]
    omega

/-- `goodIds_append` transported along a sublist of the appended list
(as produced by the overflow eviction). -/
theorem goodIds_append_sublist (b : ScreenBuf) (hg : goodIds b)
    (x : ScrollLine)
    (hx : x.opts.pagelet_id = some ⟨b.buf_note, b.current_scroll_count + 1⟩)
    (l2 : List ScrollLine) (hsub : l2.Sublist (b.scroll_lines ++ [x])) :
    (∀ l ∈ l2, ∃ k, k ≤ b.current_scroll_count + 1 ∧
        l.opts.pagelet_id = some ⟨b.buf_note, k⟩) ∧
    (l2.map lineIdNum).Chain' (· < ·) := by
  obtain ⟨h1, h2⟩ := goodIds_append b hg x hx
  exact ⟨fun l hl => h1 l (hsub.subset hl), h2.sublist (hsub.map _)⟩

/-- The prologue of `scroll_buf_up` never touches the scroll history,
its counters, or the buffer note. -/
theorem scrollPrologue_fields (b0 : ScreenBuf) (off : Nat) (pt : String)
    (opts0 : ScrollOpts) :
    (scrollPrologue b0 off pt opts0).scroll_lines = b0.scroll_lines ∧
    (scrollPrologue b0 off pt opts0).current_scroll_count =
      b0.current_scroll_count ∧
    (scrollPrologue b0 off pt opts0).last_scroll_count =
      b0.last_scroll_count ∧
    (scrollPrologue b0 off pt opts0).buf_note = b0.buf_note := by
  refine ⟨?_, ?_, ?_, ?_⟩ <;>
    (unfold scrollPrologue; split_ifs <;> simp [apply_ite])

/-- `blank_last_entry` preserves the id invariant and does not touch
`current_scroll_count` or `buf_note`. -/
theorem blank_last_entry_goodIds (b b' : ScreenBuf) (hg : goodIds b)
    (h : b.blank_last_entry = .ok b') :
    goodIds b' ∧ b'.current_scroll_count = b.current_scroll_count ∧
      b'.buf_note = b.buf_note := by
  unfold ScreenBuf.blank_last_entry at h
  split at h
  · simp at h
    rw [← h]
    exact ⟨hg, rfl, rfl⟩
  · rename_i lastL heq
    split at h
    · simp at h
    · have hrep := goodIds_replace_last b hg lastL heq
        { lastL with
          ptype := "pagelet",
          opts := { ScrollOpts.empty with
                    add_class := "",
                    pagelet_id := some ⟨b.buf_note, b.current_scroll_count⟩ },
          line := [], markup := some [] } rfl
      dsimp only at h
      split at h <;>
        (simp only [Except.ok.injEq] at h; rw [← h]; exact ⟨hrep, rfl, rfl⟩)

/-- The overwrite branch preserves the id invariant when the
replacement opts carry id `{buf_note}-{current_scroll_count}` (which
the caller always sets). -/
theorem scrollOverwrite_goodIds (b1 : ScreenBuf) (cd pt : String)
    (opts2 : ScrollOpts) (line : UStr) (mk : Option UStr) (b' : ScreenBuf)
    (hg : goodIds b1)
    (hid : opts2.pagelet_id = some ⟨b1.buf_note, b1.current_scroll_count⟩)
    (h : scrollOverwrite b1 cd pt opts2 line mk = .ok b') : goodIds b' := by
  unfold scrollOverwrite at h
  split at h
  · simp at h
  · rename_i lastL heq2
    dsimp only at h
    split at h <;>
      (simp only [Except.ok.injEq] at h; rw [← h];
       exact ⟨(goodIds_replace_last _ hg lastL heq2 _ hid).1,
              (goodIds_replace_last _ hg lastL heq2 _ hid).2⟩)

/-- The append branch preserves the id invariant. -/
theorem scrollAppend_goodIds (b1 : ScreenBuf) (cd : String) (off : Nat)
    (pt : String) (opts1 : ScrollOpts) (line : UStr) (mk : Option UStr)
    (b' : ScreenBuf) (hg : goodIds b1)
    (h : scrollAppend b1 cd off pt opts1 line mk = .ok b') : goodIds b' := by
  unfold scrollAppend at h
  dsimp only at h
  split at h
  · simp at h
  · rename_i b2 heqB
    have hgb2 : goodIds b2 := by
      split at heqB
      · exact (blank_last_entry_goodIds _ _ hg heqB).1
      · simp only [Except.ok.injEq] at heqB
        rw [← heqB]
        exact hg
    split at h
    · split at h
      · simp at h
      · rename_i old rest heqL
        split at h
        · simp at h
        · rename_i lines2 acc2 heqE
          simp only [Except.ok.injEq] at h
          rw [← h]
          have hsub : lines2.Sublist (old :: rest) :=
            ((evictRest_sublist old.index rest _ lines2 acc2
              heqE).trans (List.sublist_cons_self old rest))
          rw [← heqL] at hsub
          exact ⟨(goodIds_append_sublist b2 hgb2 _ rfl lines2 hsub).1,
                 (goodIds_append_sublist b2 hgb2 _ rfl lines2 hsub).2⟩
    · simp only [Except.ok.injEq] at h
      rw [← h]
      exact ⟨(goodIds_append b2 hgb2 _ rfl).1,
             (goodIds_append b2 hgb2 _ rfl).2⟩

/-- `scroll_buf_up` preserves the id invariant: whichever branch runs,
each stored line keeps an id `{buf_note}-{k}` with strictly increasing
`k` bounded by `current_scroll_count`. -/
theorem scroll_buf_up_goodIds (b : ScreenBuf) (line : UStr) (meta : RowMeta)
    (off : Nat) (ac pt : String) (opts0 : ScrollOpts) (mk : Option UStr)
    (b' : ScreenBuf) (hg : goodIds b)
    (h : b.scroll_buf_up line meta off ac pt opts0 mk = .ok b') :
    goodIds b' := by
  obtain ⟨hp1, hp2, hp3, hp4⟩ := scrollPrologue_fields b off pt opts0
  have hgp : goodIds (scrollPrologue b off pt opts0) := by
    unfold goodIds
    rw [hp1, hp2, hp4]
    exact hg
  simp only [ScreenBuf.scroll_buf_up] at h
  split at h
  · exact absurd h (by simp)
  · exact scrollOverwrite_goodIds _ _ _ _ _ _ _ hgp rfl h
  · exact scrollAppend_goodIds _ _ _ _ _ _ _ _ hgp h

/-- One externally driven ScreenBuf mutation, for the id-uniqueness
statement: a `scroll_buf_up` insertion or a `blank_last_entry`. -/
inductive BufOp where
  | scroll (line : UStr) (meta : RowMeta) (offset : Nat) (ac : String)
      (ptype : String) (opts : ScrollOpts) (mk : Option UStr)
  | blank

/-- Apply one operation. -/
def applyOp (b : ScreenBuf) : BufOp → Except PyErr ScreenBuf
  | .scroll line meta off ac pt opts mk =>
    b.scroll_buf_up line meta off ac pt opts mk
  | .blank => b.blank_last_entry

/-- Apply a sequence of operations, propagating errors. -/
def applyOps (b : ScreenBuf) : List BufOp → Except PyErr ScreenBuf
  | [] => .ok b
  | op :: rest =>
    match applyOp b op with
    | .error e => .error e
    | .ok b2 => applyOps b2 rest

/-- The invariant holds along any successful operation sequence. -/
theorem applyOps_goodIds (ops : List BufOp) (b b' : ScreenBuf)
    (hg : goodIds b) (h : applyOps b ops = .ok b') : goodIds b' := by
  induction ops generalizing b with
  | nil =>
    unfold applyOps at h
    simp at h
    rwa [← h]
  | cons op rest ih =>
    unfold applyOps at h
    split at h
    · simp at h
    · rename_i b2 heq
      refine ih b2 ?_ h
      cases op with
      | scroll line meta off ac pt opts mk =>
        exact scroll_buf_up_goodIds b line meta off ac pt opts mk b2 hg heq
      | blank => exact (blank_last_entry_goodIds b b2 hg heq).1

/-- C9 (amended): over any sequence of `scroll_buf_up` and
`blank_last_entry` operations applied to a fresh ScreenBuf (that is,
excluding `clear_last_entry`, which rewinds the counter and provably
reuses ids), every stored line's `pagelet_id` is
`{buf_note}-{k}` for some `k ≤ current_scroll_count` — the id assigned
from the counter at insertion time — and the ids of the stored lines
are pairwise distinct. -/
theorem C9_pagelet_ids_unique (pd : Pdelim) (ops : List BufOp)
    (b' : ScreenBuf) (h : applyOps (ScreenBuf.init pd) ops = .ok b') :
    (∀ l ∈ b'.scroll_lines, ∃ k, k ≤ b'.current_scroll_count ∧
        l.opts.pagelet_id = some ⟨b'.buf_note, k⟩) ∧
    (b'.scroll_lines.map (fun l => l.opts.pagelet_id)).Pairwise (· ≠ ·) := by
  have hg : goodIds b' := by
    refine applyOps_goodIds ops _ b' ⟨?_, ?_⟩ h
    · intro l hl
      simp [ScreenBuf.init] at hl
    · simp [ScreenBuf.init]
  refine ⟨hg.1, ?_⟩
  have hpw : (b'.scroll_lines.map lineIdNum).Pairwise (· < ·) :=
    List.chain'_iff_pairwise.mp hg.2
  rw [List.pairwise_map] at hpw ⊢
  refine hpw.imp_of_mem ?_
  intro a c ha hc hlt
  obtain ⟨ka, hka, hida⟩ := hg.1 a ha
  obtain ⟨kc, hkc, hidc⟩ := hg.1 c hc
  rw [hida, hidc]
  have h1 : lineIdNum a = ka := by simp [lineIdNum, hida]
  have h2 : lineIdNum c = kc := by simp [lineIdNum, hidc]
  intro hcontra
  simp only [Option.some.injEq, PageletId.mk.injEq] at hcontra
  omega

/-- A concrete operation sequence: one prompt line, one pagelet. -/
def c9ops : List BufOp :=
  [BufOp.scroll [36] (some ("/h", 0)) 2 "" "" ScrollOpts.empty none,
   BufOp.scroll [65] none 0 "" "pagelet" ScrollOpts.empty none]

/-- The buffer reached by `c9ops` from a fresh ScreenBuf. -/
def c9final : ScreenBuf :=
  match applyOps (ScreenBuf.init none) c9ops with
  | .ok b => b
  | .error _ => ScreenBuf.init none

/-- Witness for `C9_pagelet_ids_unique` at the concrete sequence
`c9ops`: the run succeeds and the stored ids are pairwise distinct. -/
theorem C9_pagelet_ids_unique_witness :
    applyOps (ScreenBuf.init none) c9ops = .ok c9final ∧
    (c9final.scroll_lines.map (fun l => l.opts.pagelet_id)).Pairwise
      (· ≠ ·) :=
  ⟨rfl, (C9_pagelet_ids_unique none c9ops c9final rfl).2⟩

/-!
## The Terminal emulator

`Terminal` is embedded as a structure `Emu` (all fields of
`__init__`/`reset` that the modeled paths touch) plus the pending
escape buffer `buf`, threaded separately by `write` (no handler ever
assigns `self.buf`).  `screen_callback` invocations become an
append-only `events` log.  Wall-clock fields (`update_time`,
`output_time`), logging (`logfile`, `logchars`), the pty identity
(`fd`, `pid`, `term_name`) and window dimensions are dropped: no
modeled path branches on them.  `self.screen` is embedded as the screen
selected by `alt_mode` (the source re-points it on every mode switch).
-/

/-- `x_gterm_parameters`: the parameter dictionary keys the file
reads. -/
structure RespParams where
  filepath : Option String
  filetype : Option String
  blob : Option String
  user : Option String
  frame : Option String
deriving DecidableEq, Repr

/-- The empty parameter dictionary `{}`. -/
def RespParams.empty : RespParams :=
  { filepath := none, filetype := none, blob := none,
    user := none, frame := none }

/-- Pagelet headers (`parse_headers`, lineterm.py:250): the keys the
file reads, with `json_error` marking the parse-failure annotation. -/
structure Headers where
  content_type : String
  x_gterm_response : String
  x_gterm_parameters : RespParams
  content_length : Option Nat
  json_error : Bool
deriving DecidableEq, Repr

/-- The default headers dict of `parse_headers`. -/
def Headers.default : Headers :=
  { content_type := "text/html", x_gterm_response := "",
    x_gterm_parameters := RespParams.empty, content_length := none,
    json_error := false }

/-- One `screen_callback` invocation (kind and args). -/
inductive Event where
  | row_update (alt_mode full_update : Bool) (active_rows width height : Nat)
      (cursor_x cursor_y : Int) (pre_offset : Nat)
      (rows : List UpdateRow) (scroll : List ScrollLine)
  | note_row_update (alt_mode full_update : Bool)
      (active_rows width height : Nat) (cursor_x cursor_y : Int)
      (pre_offset : Nat) (rows : List UpdateRow) (scroll : List ScrollLine)
  | delete_blob (blob_id : String)
  | note_activate (active : Bool) (cwd : String) (at_shell : Bool)
  | note_add_cell (cell_index : Nat) (cell_type : String)
      (before_index : Nat) (inp : List UStr) (co : List ScrollLine)
  | create_blob (blob_id : String) (headers : Headers) (content : UStr)
  | frame_msg (user frame : String) (content : UStr)
  | graphterm_output (validated : Bool) (headers : Headers) (content : UStr)
deriving DecidableEq, Repr

/-- One notebook cell (lineterm.py:929). -/
structure NoteCell where
  cellIndex : Nat
  cellType : String
  cellInput : List UStr
  cellOutput : List ScrollLine
deriving DecidableEq, Repr

/-- The `note_cells` dictionary (lineterm.py:896). -/
structure NoteCells where
  maxIndex : Nat
  curIndex : Nat
  cellIndices : List Nat
  cells : List (Nat × NoteCell)
deriving DecidableEq, Repr

/-- Terminal state (lineterm.py:705-830) minus the pending escape
buffer (see the section comment). -/
structure Emu where
  width : Nat
  height : Nat
  cookie : String
  pdelim : Pdelim
  screen_buf : ScreenBuf
  note_count : Nat
  note_screen_buf : ScreenBuf
  note_cells : Option NoteCells
  note_input : List UStr
  note_prompts : List UStr
  note_shell : Bool
  needs_updating : Bool
  main_screen : Screen
  alt_screen : Screen
  scroll_top : Int
  scroll_bot : Int
  cursor_x_bak : Int
  cursor_y_bak : Int
  cursor_x : Int
  cursor_y : Int
  cursor_eol : Bool
  current_nul : Nat
  echobuf : UStr
  echobuf_count : Nat
  outbuf : String
  last_html : String
  active_rows : Nat
  current_dir : String
  current_meta : RowMeta
  gterm_code : Option Nat
  gterm_buf : Option (List UStr)
  gterm_buf_size : Nat
  gterm_entry_index : Option Nat
  gterm_validated : Bool
  gterm_output_buf : Option (Bool × Headers × UStr)
  alt_mode : Bool
  command_path : UStr
  events : List Event
deriving DecidableEq, Repr

/-- `self.screen`: the screen selected by `alt_mode`. -/
def Emu.cur_screen (e : Emu) : Screen :=
  if e.alt_mode then e.alt_screen else e.main_screen

/-- Write back the selected screen. -/
def Emu.set_cur_screen (e : Emu) (sc : Screen) : Emu :=
  if e.alt_mode then { e with alt_screen := sc }
  else { e with main_screen := sc }

/-- `screen_buf = self.note_screen_buf if self.note_cells else
self.screen_buf` (lineterm.py:1666). -/
def Emu.cur_buf (e : Emu) : ScreenBuf :=
  if e.note_cells.isSome then e.note_screen_buf else e.screen_buf

/-- Write back the selected scroll buffer. -/
def Emu.set_cur_buf (e : Emu) (b : ScreenBuf) : Emu :=
  if e.note_cells.isSome then { e with note_screen_buf := b }
  else { e with screen_buf := b }

/-- Python single-index read `l[i]` on cell data (negative indices wrap;
out of range is IndexError). -/
def pyGet (l : List Nat) (i : Int) : Except PyErr Nat :=
  let n : Int := l.length
  let j := if i < 0 then n + i else i
  if 0 ≤ j ∧ j < n then .ok (l.getD j.toNat 0) else .error .indexError

/-- Python single-index write `l[i] = v` on cell data. -/
def pySet (l : List Nat) (i : Int) (v : Nat) : Except PyErr (List Nat) :=
  let n : Int := l.length
  let j := if i < 0 then n + i else i
  if 0 ≤ j ∧ j < n then .ok (l.set j.toNat v) else .error .indexError

/-- Python single-index read on row metadata. -/
def pyGetMeta (l : List RowMeta) (i : Int) : Except PyErr RowMeta :=
  let n : Int := l.length
  let j := if i < 0 then n + i else i
  if 0 ≤ j ∧ j < n then .ok (l.getD j.toNat none) else .error .indexError

/-- Python single-index write on row metadata. -/
def pySetMeta (l : List RowMeta) (i : Int) (v : RowMeta) :
    Except PyErr (List RowMeta) :=
  let n : Int := l.length
  let j := if i < 0 then n + i else i
  if 0 ≤ j ∧ j < n then .ok (l.set j.toNat v) else .error .indexError

/-- `Terminal.peek` (lineterm.py:1184):
`self.screen.data[width*y1+x1 : width*y2+x2]`. -/
def Emu.peek (e : Emu) (y1 x1 y2 x2 : Int) : List Nat :=
  pySlice e.cur_screen.data ((e.width : Int) * y1 + x1)
    ((e.width : Int) * y2 + x2)

/-- `Terminal.poke` (lineterm.py:1187). -/
def Emu.poke (e : Emu) (y x : Int) (s : List Nat) : Emu :=
  let pos := (e.width : Int) * y + x
  let sc := e.cur_screen
  let e2 := e.set_cur_screen
    { sc with data := pySetSlice sc.data pos (pos + s.length) s }
  if ¬ e2.alt_mode then
    { e2 with active_rows := max (y + 1).toNat e2.active_rows }
  else e2

/-- `Terminal.zero` (lineterm.py:1171) on the selected screen. -/
def Emu.zero (e : Emu) (y1 x1 y2 x2 : Int) : Emu :=
  let w : Int := e.width
  let wcount := w * (y2 - y1) + x2 - x1 + 1
  let z := List.replicate wcount.toNat 0
  let sc := e.cur_screen
  e.set_cur_screen
    { sc with data := pySetSlice sc.data (w * y1 + x1) (w * y2 + x2 + 1) z }

/-- `Terminal.zero_lines` (lineterm.py:1177). -/
def Emu.zero_lines (e : Emu) (y1 y2 : Int) : Emu :=
  let e2 := e.zero y1 0 y2 ((e.width : Int) - 1)
  let sc := e2.cur_screen
  let m2 := pySetSliceMeta sc.meta y1 (y2 + 1)
    (List.replicate (y2 + 1 - y1).toNat none)
  e2.set_cur_screen { sc with meta := m2 }

/-- `Terminal.zero_screen` (lineterm.py:1181). -/
def Emu.zero_screen (e : Emu) : Emu :=
  e.zero_lines 0 ((e.height : Int) - 1)

/-- `Terminal.scroll_up` (lineterm.py:1193). -/
def Emu.scroll_up (e : Emu) (y1 y2 : Int) : Emu :=
  let e2 :=
    if y2 > y1 then
      let e' := e.poke y1 0 (e.peek (y1 + 1) 0 y2 (e.width : Int))
      let sc := e'.cur_screen
      let m2 := pySetSliceMeta sc.meta y1 y2 (pySliceMeta sc.meta (y1 + 1) (y2 + 1))
      e'.set_cur_screen { sc with meta := m2 }
    else e
  e2.zero_lines y2 y2

/-- `Terminal.scroll_down` (lineterm.py:1199). -/
def Emu.scroll_down (e : Emu) (y1 y2 : Int) : Emu :=
  let e2 :=
    if y2 > y1 then
      let e' := e.poke (y1 + 1) 0 (e.peek y1 0 (y2 - 1) (e.width : Int))
      let sc := e'.cur_screen
      let m2 := pySetSliceMeta sc.meta (y1 + 1) (y2 + 1) (pySliceMeta sc.meta y1 y2)
      e'.set_cur_screen { sc with meta := m2 }
    else e
  e2.zero_lines y1 y1

/-- `Terminal.scroll_right` (lineterm.py:1205). -/
def Emu.scroll_right (e : Emu) (y x : Int) : Emu :=
  let e2 := e.poke y (x + 1) (e.peek y x y ((e.width : Int) - 1))
  e2.zero y x y x

/-- `Terminal.reset` (lineterm.py:806). -/
def Emu.reset (e : Emu) : Emu :=
  { e with
    needs_updating := true,
    main_screen := Screen.blank e.width e.height,
    alt_screen := Screen.blank e.width e.height,
    scroll_top := 0,
    scroll_bot := if e.note_cells.isSome then 0 else (e.height : Int) - 1,
    cursor_x_bak := 0, cursor_x := 0, cursor_y_bak := 0, cursor_y := 0,
    cursor_eol := false,
    current_nul := default_nul,
    echobuf := [], echobuf_count := 0,
    outbuf := "", last_html := "",
    active_rows := 0, current_dir := "", current_meta := none,
    gterm_code := none, gterm_buf := none, gterm_buf_size := 0,
    gterm_entry_index := none, gterm_validated := false,
    gterm_output_buf := none }

/-- Whitespace tokenization standing in for Python's `shlex.split`:
`parse_command` only reads the first token and swallows every
exception, and no claim observes `command_path`. -/
def splitWS (s : UStr) : List UStr :=
  ((s.foldr (fun c acc =>
      if c = 32 ∨ c = 9 ∨ c = 10 ∨ c = 13 ∨ c = 11 ∨ c = 12 then [] :: acc
      else match acc with
        | t :: rest => (c :: t) :: rest
        | [] => [[c]]) [[]]).filter (fun t => ¬ t.isEmpty))

/-- `Terminal.parse_command` (lineterm.py:1209). -/
def Emu.parse_command (e : Emu) : Emu :=
  if (!e.alt_mode && (match e.current_meta with
      | some m => decide (m.2 = 0)
      | none => false)) then
    let line := dump (e.peek e.cursor_y 0 e.cursor_y (e.width : Int)) true
    let offset := prompt_offset line e.pdelim e.current_meta
    match (splitWS (line.drop offset)).head? with
    | some t => { e with command_path := t }
    | none => e
  else e

/-- `Terminal.expect_prompt` (lineterm.py:1254). -/
def Emu.expect_prompt (e : Emu) (current_directory : String) :
    Except PyErr Emu := do
  let e := { e with command_path := [], current_dir := current_directory }
  if e.active_rows = 0 ∨ e.cursor_y + 1 = (e.active_rows : Int) then
    let e := { e with current_meta := some (current_directory, 0) }
    let sc := e.cur_screen
    let meta2 ← pySetMeta sc.meta e.cursor_y (some (current_directory, 0))
    .ok (e.set_cur_screen { sc with meta := meta2 })
  else
    .ok e

/-- `Terminal.enter` (lineterm.py:1261). -/
def Emu.enter (e : Emu) : Emu :=
  { e.parse_command with current_meta := none }

/-- `Terminal.cursor_down` (lineterm.py:1220). -/
def Emu.cursor_down (e : Emu) : Except PyErr Emu := do
  if e.scroll_top ≤ e.cursor_y ∧ e.cursor_y ≤ e.scroll_bot then
    let e := { e with cursor_eol := false }
    let e := e.parse_command
    if e.scroll_bot + 1 = 0 then throw .zeroDivisionError
    let q := (e.cursor_y + 1).ediv (e.scroll_bot + 1)
    let r := (e.cursor_y + 1).emod (e.scroll_bot + 1)
    let e ←
      if q ≠ 0 then do
        let row := e.peek e.scroll_top 0 e.scroll_top (e.width : Int)
        let meta ← pyGetMeta e.cur_screen.meta e.scroll_top
        let offset := prompt_offset (dump row false) e.pdelim meta
        let e ←
          if e.note_cells.isSome then do
            let b ← e.note_screen_buf.scroll_buf_up (dump row true) meta
              offset "" "" ScrollOpts.empty none
            pure { e with note_screen_buf := b }
          else if ¬ e.alt_mode then do
            let b ← e.screen_buf.scroll_buf_up (dump row true) meta
              offset "" "" ScrollOpts.empty none
            pure { e with screen_buf := b }
          else pure e
        let e := e.scroll_up e.scroll_top e.scroll_bot
        pure { e with cursor_y := e.scroll_bot }
      else
        pure { e with cursor_y := r }
    if ¬ e.alt_mode then
      let e := { e with
        active_rows := max (e.cursor_y + 1).toNat e.active_rows }
      match e.current_meta with
      | some cm => do
        let m ← pyGetMeta e.cur_screen.meta ((e.active_rows : Int) - 1)
        if m.isNone then
          let newMeta : RowMeta := some (cm.1, cm.2 + 1)
          let sc := e.cur_screen
          let meta2 ← pySetMeta sc.meta ((e.active_rows : Int) - 1) newMeta
          .ok ({ e.set_cur_screen { sc with meta := meta2 } with
                 current_meta := newMeta })
        else .ok e
      | none => .ok e
    else .ok e
  else
    .ok e

/-- `Terminal.cursor_right` (lineterm.py:1247). -/
def Emu.cursor_right (e : Emu) : Except PyErr Emu := do
  if (e.width : Int) = 0 then throw .zeroDivisionError
  let q := (e.cursor_x + 1).ediv (e.width : Int)
  let r := (e.cursor_x + 1).emod (e.width : Int)
  if q ≠ 0 then .ok { e with cursor_eol := true }
  else .ok { e with cursor_x := r }

/-- UTF-8 multi-byte decoding for `echo` (Python
`str.decode("utf-8", "replace")`): the bit formula for 2/3/4-byte
sequences, with malformed continuations replaced by U+FFFD.  (The
claims never inspect decoded code points; strict overlong/surrogate
rejection is collapsed into the formula.) -/
def utf8_decode (bs : UStr) : Nat :=
  match bs with
  | [b0, b1] =>
    if b1.land 0xc0 = 0x80 then ((b0.land 0x1f) <<< 6) ||| (b1.land 0x3f)
    else 0xfffd
  | [b0, b1, b2] =>
    if b1.land 0xc0 = 0x80 ∧ b2.land 0xc0 = 0x80 then
      ((b0.land 0x0f) <<< 12) ||| ((b1.land 0x3f) <<< 6) ||| (b2.land 0x3f)
    else 0xfffd
  | [b0, b1, b2, b3] =>
    if b1.land 0xc0 = 0x80 ∧ b2.land 0xc0 = 0x80 ∧ b3.land 0xc0 = 0x80 then
      ((b0.land 0x07) <<< 18) ||| ((b1.land 0x3f) <<< 12) |||
        ((b2.land 0x3f) <<< 6) ||| (b3.land 0x3f)
    else 0xfffd
  | _ => 0xfffd

/-- The write-to-screen tail of `Terminal.echo` (lineterm.py:1306-1312),
after UTF-8 resolution. -/
def Emu.echo_commit (e : Emu) (uchar : Nat) : Except PyErr Emu := do
  let e ←
    if e.cursor_eol then do
      let e2 ← e.cursor_down
      pure { e2 with cursor_x := 0 }
    else pure e
  let sc := e.cur_screen
  let data2 ← pySet sc.data ((e.cursor_y * (e.width : Int)) + e.cursor_x)
    (e.current_nul ||| uchar)
  let e := e.set_cur_screen { sc with data := data2 }
  let e ← e.cursor_right
  if ¬ e.alt_mode then
    .ok { e with active_rows := max (e.cursor_y + 1).toNat e.active_rows }
  else .ok e

/-- `Terminal.echo` (lineterm.py:1266) for ENCODING = "utf-8". -/
def Emu.echo (e : Emu) (char : Nat) : Except PyErr Emu :=
  if char.land 0x80 ≠ 0 then
    if char.land 0x40 ≠ 0 then
      -- New UTF-8 sequence
      if char.land 0x20 = 0 then .ok { e with echobuf := [char], echobuf_count := 2 }
      else if char.land 0x10 = 0 then .ok { e with echobuf := [char], echobuf_count := 3 }
      else if char.land 0x08 = 0 then .ok { e with echobuf := [char], echobuf_count := 4 }
      else .ok { e with echobuf := [], echobuf_count := 0 }
    else
      -- Continue UTF-8 sequence
      if e.echobuf.isEmpty then .ok e
      else
        let eb := e.echobuf ++ [char]
        if eb.length < e.echobuf_count then .ok { e with echobuf := eb }
        else
          Emu.echo_commit { e with echobuf := [], echobuf_count := 0 }
            (utf8_decode eb)
  else
    e.echo_commit char

/-- `esc_0x08` Backspace (lineterm.py:1314). -/
def Emu.esc_bs (e : Emu) : Emu := { e with cursor_x := max 0 (e.cursor_x - 1) }

/-- `esc_0x09` Tab (lineterm.py:1318): `divmod(cursor_x+8, 8)` then
`(q*8) % width`. -/
def Emu.esc_tab (e : Emu) : Except PyErr Emu := do
  if (e.width : Int) = 0 then throw .zeroDivisionError
  let q := (e.cursor_x + 8).ediv 8
  .ok { e with cursor_x := (q * 8).emod (e.width : Int) }

/-- `esc_0x0d` Carriage Return (lineterm.py:1328). -/
def Emu.esc_cr (e : Emu) : Emu := { e with cursor_eol := false, cursor_x := 0 }

/-- `esc_save` (lineterm.py:1333). -/
def Emu.esc_save (e : Emu) : Emu :=
  { e with cursor_x_bak := e.cursor_x, cursor_y_bak := e.cursor_y }

/-- `esc_restore` (lineterm.py:1337). -/
def Emu.esc_restore (e : Emu) : Emu :=
  let e := { e with cursor_x := e.cursor_x_bak, cursor_y := e.cursor_y_bak,
                    cursor_eol := false }
  if ¬ e.alt_mode then
    { e with active_rows := max (e.cursor_y + 1).toNat e.active_rows }
  else e

/-- `esc_da` (lineterm.py:1344). -/
def Emu.esc_da (e : Emu) : Emu := { e with outbuf := "\x1b[?6c" }

/-- `esc_sda` (lineterm.py:1348). -/
def Emu.esc_sda (e : Emu) : Emu := { e with outbuf := "\x1b[>0;0;0c" }

/-- `esc_tpr` (lineterm.py:1352). -/
def Emu.esc_tpr (e : Emu) : Emu := { e with outbuf := "\x1b[0;0;0;0;0;0;0x" }

/-- `esc_sr` (lineterm.py:1356). -/
def Emu.esc_sr (e : Emu) : Emu := { e with outbuf := "\x1b[0n" }

/-- `esc_cpr` (lineterm.py:1360). -/
def Emu.esc_cpr (e : Emu) : Emu :=
  { e with outbuf := "\x1b[" ++ toString (e.cursor_y + 1) ++ ";" ++
      toString (e.cursor_x + 1) ++ "R" }

/-- `esc_nel` (lineterm.py:1364). -/
def Emu.esc_nel (e : Emu) : Except PyErr Emu := do
  let e ← e.cursor_down
  .ok { e with cursor_x := 0 }

/-- `esc_ri` (lineterm.py:1373). -/
def Emu.esc_ri (e : Emu) : Emu :=
  let e :=
    if e.cursor_y = e.scroll_top then e.scroll_down e.scroll_top e.scroll_bot
    else { e with cursor_y := max e.scroll_top (e.cursor_y - 1) }
  if ¬ e.alt_mode then
    { e with active_rows := max (e.cursor_y + 1).toNat e.active_rows }
  else e

/-- The prompt search of `scroll_screen` (lineterm.py:1063):
`for j in range(active_rows-1, -1, -1): if prompt_offset(...): break`,
called with `j` = `active_rows - 1`.  The loop's `j = 0` iteration is
behaviorally identical to finding nothing (`scroll_rows` stays/becomes
0), so the recursion stops at 1. -/
def findPromptRow (screen : Screen) (w : Nat) (pdelim : Pdelim) :
    Nat → Nat
  | 0 => 0
  | j + 1 =>
    if prompt_offset (dump (rowSlice screen.data w (j + 1)) false) pdelim
        (screen.meta.getD (j + 1) none) ≠ 0 then j + 1
    else findPromptRow screen w pdelim j

/-- The multiline-command concatenation loop of `scroll_screen`
(lineterm.py:1080): advance while the next row is a continuation,
appending its cells.  `fuel` bounds the loop by `scroll_rows`. -/
def concatCont (screen : Screen) (w : Nat) (scroll_rows : Nat) :
    Nat → Nat → List Nat → (Nat × List Nat)
  | 0, y, row => (y, row)
  | fuel + 1, y, row =>
    if (decide (y < scroll_rows - 1) &&
        (match screen.meta.getD (y + 1) none with
         | some m => decide (m.2 ≠ 0)
         | none => false)) then
      concatCont screen w scroll_rows fuel (y + 1)
        (row ++ rowSlice screen.data w (y + 1))
    else (y, row)

/-- The retirement loop of `scroll_screen` (lineterm.py:1073-1087):
rows `0 ≤ y < scroll_rows` of the main screen move into `buf`. -/
def retireLoop (screen : Screen) (w : Nat) (pdelim : Pdelim)
    (scroll_rows : Nat) : Nat → Nat → ScreenBuf →
    Except PyErr ScreenBuf
  | 0, _, buf => .ok buf
  | fuel + 1, y, buf => do
    if y < scroll_rows then
      let row := rowSlice screen.data w y
      let meta := screen.meta.getD y none
      let offset := prompt_offset (dump row false) pdelim meta
      let (y2, row2) :=
        if meta.isSome then concatCont screen w scroll_rows scroll_rows y row
        else (y, row)
      let buf2 ← buf.scroll_buf_up (dump row2 true) meta offset "" ""
        ScrollOpts.empty none
      retireLoop screen w pdelim scroll_rows fuel (y2 + 1) buf2
    else .ok buf

/-- `scroll_screen`, shift phase 1 (lineterm.py:1090-1091): copy rows
`scroll_rows..active_rows-1` to the top. -/
def shiftPoke (e : Emu) (scroll_rows : Nat) : Emu :=
  if scroll_rows < e.active_rows then
    e.poke 0 0 (e.peek (scroll_rows : Int) 0 ((e.active_rows : Int) - 1)
      (e.width : Int))
  else e

/-- `scroll_screen`, shift phase 2 (lineterm.py:1092): drop the retired
rows from the active count. -/
def shiftActive (e : Emu) (scroll_rows : Nat) : Emu :=
  { e with active_rows := e.active_rows - scroll_rows }

/-- `scroll_screen`, shift phase 3 (lineterm.py:1093-1094): shift the
per-row metadata alongside. -/
def shiftMeta (e : Emu) (scroll_rows : Nat) : Emu :=
  if e.active_rows ≠ 0 then
    let sc := e.cur_screen
    let m2 := pySetSliceMeta sc.meta 0 (e.active_rows : Int)
      (pySliceMeta sc.meta (scroll_rows : Int)
        ((scroll_rows : Int) + (e.active_rows : Int)))
    e.set_cur_screen { sc with meta := m2 }
  else e

/-- `scroll_screen`, shift phase 4 (lineterm.py:1095): blank the rows
below the active region. -/
def shiftZero (e : Emu) : Emu :=
  e.zero_lines (e.active_rows : Int) ((e.height : Int) - 1)

/-- `scroll_screen`, shift phase 5 (lineterm.py:1096-1099): pull the
cursor up, resetting the column when no active row remains. -/
def shiftCursor (e : Emu) (scroll_rows : Nat) : Emu :=
  let e := { e with cursor_y := max 0 (e.cursor_y - (scroll_rows : Int)) }
  if e.active_rows == 0 then { e with cursor_x := 0, cursor_eol := false }
  else e

/-- `Terminal.scroll_screen` (lineterm.py:1059): retire scrolled rows
of the main screen into the active scroll buffer, shift the remaining
rows up (phases 1-5 above, in source order), and adjust the cursor.
The `scroll_rows=None` default is `none`. -/
def Emu.scroll_screen (e : Emu) (scroll_rows_arg : Option Nat) :
    Except PyErr Emu := do
  let pdelim := if e.note_cells.isSome then none else e.pdelim
  let scroll_rows :=
    match scroll_rows_arg with
    | some r => r
    | none =>
      if e.active_rows = 0 then 0
      else findPromptRow e.main_screen e.width pdelim (e.active_rows - 1)
  if scroll_rows = 0 then .ok e
  else
    let buf0 := e.cur_buf
    let buf1 ← retireLoop e.main_screen e.width pdelim scroll_rows
      scroll_rows 0 buf0
    .ok (shiftCursor (shiftZero (shiftMeta (shiftActive
      (shiftPoke (e.set_cur_buf buf1) scroll_rows) scroll_rows)
        scroll_rows)) scroll_rows)

/-- Lower-case a code point (for the `"error" in line.lower()` test). -/
def lowerCode (c : Nat) : Nat := if 65 ≤ c ∧ c ≤ 90 then c + 32 else c

/-- `"error" in line.lower()` (lineterm.py:183). -/
def containsErr (line : UStr) : Bool :=
  (findSub (line.map lowerCode) [101, 114, 114, 111, 114]).isSome

/-- `strip_prompt_lines` (lineterm.py:162). -/
def strip_aux (prompts : List UStr) : List ScrollLine →
    List ScrollLine → List ScrollLine → Option ScrollLine → List ScrollLine
  | [], trunc, block, _ => trunc ++ block
  | entry :: rest, trunc, block, prevP =>
    if prompts.any (fun p => p.isPrefixOf entry.line) then
      strip_aux prompts rest (trunc ++ block) [] (some entry)
    else
      let block2 := block ++ [entry]
      if containsErr entry.line then
        match prevP with
        | some pe => strip_aux prompts rest trunc ([pe] ++ block2) none
        | none => strip_aux prompts rest trunc block2 none
      else strip_aux prompts rest trunc block2 prevP

/-- `strip_prompt_lines` (lineterm.py:162): elide notebook prompt
entries, re-including the preceding prompt when an error follows. -/
def strip_prompt_lines (update_scroll : List ScrollLine)
    (note_prompts : List UStr) : List ScrollLine :=
  strip_aux note_prompts update_scroll [] [] none

/-- `pre_offset = len(self.pdelim[0]) if self.pdelim else 0`
(lineterm.py:1129). -/
def pre_offset_len (pd : Pdelim) : Nat :=
  match pd with
  | some pd2 => pd2.1.length
  | none => 0

/-- `Terminal.update_callback` (lineterm.py:1110), blob-flush phase
(lineterm.py:1112-1115): flush pending blob deletions in normal
mode. -/
def cbFlush (e : Emu) : Emu :=
  if e.note_cells.isNone ∧ e.screen_buf.delete_blob_ids ≠ [] then
    { e with
      events := e.events ++
        (e.screen_buf.delete_blob_ids.map Event.delete_blob),
      screen_buf := { e.screen_buf with delete_blob_ids := [] } }
  else e

/-- `update_callback`, `row_update` phase (lineterm.py:1116-1136). -/
def cbRow (e : Emu) (reconnecting : Bool) : Emu :=
  if e.note_cells.isNone ∨ e.screen_buf.full_update ∨ reconnecting then
    let altS := if e.alt_mode then some e.alt_screen else none
    let arcxy :=
      if e.note_cells.isSome then ((0 : Nat), (0 : Int), (0 : Int))
      else (e.active_rows, e.cursor_x, e.cursor_y)
    let upd := e.screen_buf.update arcxy.1 e.width e.height arcxy.2.1
      arcxy.2.2 e.main_screen altS e.pdelim [] reconnecting
    let e2 := { e with
      screen_buf := upd.1,
      events := e.events ++ [Event.row_update e.alt_mode
        upd.2.full_update e.active_rows e.width e.height e.cursor_x
        e.cursor_y (pre_offset_len e.pdelim) upd.2.update_rows
        upd.2.update_scroll] }
    if e2.note_cells.isNone ∧ reconnecting = false ∧
        (upd.2.update_rows ≠ [] ∨ upd.2.update_scroll ≠ []) then
      { e2 with gterm_output_buf := none }
    else e2
  else e

/-- `update_callback`, notebook phase (lineterm.py:1137-1171).  The
inverted guard on `note_screen_buf.delete_blob_ids` (lineterm.py:1138)
makes the notebook blob-deletion loop a no-op, exactly as in the
source. -/
def cbNote (e : Emu) (reconnecting : Bool) : Emu :=
  if e.note_cells.isSome then
    let e :=
      if e.note_screen_buf.delete_blob_ids = [] then
        { e with
          events := e.events ++
            (e.note_screen_buf.delete_blob_ids.map Event.delete_blob),
          note_screen_buf :=
            { e.note_screen_buf with delete_blob_ids := [] } }
      else e
    let e :=
      if reconnecting then
        let e := { e with events := e.events ++
            [Event.note_activate true e.current_dir e.note_shell] }
        match e.note_cells with
        | some nc =>
          { e with events := e.events ++ (nc.cellIndices.filterMap (fun ci =>
              (nc.cells.lookup ci).map (fun cell =>
                Event.note_add_cell cell.cellIndex cell.cellType 0
                  cell.cellInput cell.cellOutput))) }
        | none => e
      else e
    let upd := e.note_screen_buf.update e.active_rows e.width e.height
      e.cursor_x e.cursor_y e.main_screen none none e.note_prompts
      reconnecting
    let scroll2 := strip_prompt_lines upd.2.update_scroll e.note_prompts
    let e := { e with
      note_screen_buf := upd.1,
      events := e.events ++ [Event.note_row_update false upd.2.full_update
        e.active_rows e.width e.height e.cursor_x e.cursor_y 0
        upd.2.update_rows scroll2] }
    if ¬ reconnecting ∧ (upd.2.update_rows ≠ [] ∨ scroll2 ≠ []) then
      { e with gterm_output_buf := none }
    else e
  else e

/-- `Terminal.update_callback` glued from the three phases above
(`response_id` is only read for truthiness). -/
def Emu.update_callback (e : Emu) (response_id : String) : Emu :=
  let reconnecting : Bool := response_id != ""
  cbNote (cbRow (cbFlush e) reconnecting) reconnecting

/-- `Terminal.update` (lineterm.py:1101): scroll the main screen (in
normal mode) and run the callback.  The wall-clock `update_time` is
dropped. -/
def Emu.update (e : Emu) : Except PyErr Emu := do
  let e := { e with needs_updating := false }
  let e ← if ¬ e.alt_mode then e.scroll_screen none else pure e
  .ok (e.update_callback "")

/-- `csi_at` Insert blanks (lineterm.py:1403). -/
def Emu.csi_at (e : Emu) (l : List Nat) : Emu :=
  (List.range (l.headD 0)).foldl
    (fun e _ => e.scroll_right e.cursor_y e.cursor_x) e

/-- `csi_A` Cursor up (lineterm.py:1407). -/
def Emu.csi_A (e : Emu) (l : List Nat) : Emu :=
  { e with cursor_y := max e.scroll_top (e.cursor_y - (l.headD 0 : Int)) }

/-- `csi_B` Cursor down (lineterm.py:1411). -/
def Emu.csi_B (e : Emu) (l : List Nat) : Emu :=
  let e := { e with
    cursor_y := min e.scroll_bot (e.cursor_y + (l.headD 0 : Int)) }
  if ¬ e.alt_mode then
    { e with active_rows := max (e.cursor_y + 1).toNat e.active_rows }
  else e

/-- `csi_C` Cursor forward (lineterm.py:1417). -/
def Emu.csi_C (e : Emu) (l : List Nat) : Emu :=
  { e with
    cursor_x := min ((e.width : Int) - 1) (e.cursor_x + (l.headD 0 : Int)),
    cursor_eol := false }

/-- `csi_D` Cursor backward (lineterm.py:1422). -/
def Emu.csi_D (e : Emu) (l : List Nat) : Emu :=
  { e with cursor_x := max 0 (e.cursor_x - (l.headD 0 : Int)),
           cursor_eol := false }

/-- `csi_E` Cursor next line (lineterm.py:1427). -/
def Emu.csi_E (e : Emu) (l : List Nat) : Emu :=
  { e.csi_B l with cursor_x := 0, cursor_eol := false }

/-- `csi_F` Cursor preceding line (lineterm.py:1433). -/
def Emu.csi_F (e : Emu) (l : List Nat) : Emu :=
  { e.csi_A l with cursor_x := 0, cursor_eol := false }

/-- `csi_G` Cursor Character Absolute (lineterm.py:1439):
`self.cursor_x = min(self.width, l[0])-1`. -/
def Emu.csi_G (e : Emu) (l : List Nat) : Emu :=
  { e with cursor_x := min (e.width : Int) (l.headD 0 : Int) - 1 }

/-- `csi_H` Cursor Position (lineterm.py:1443). -/
def Emu.csi_H (e : Emu) (l : List Nat) : Emu :=
  let l := if l.length < 2 then [1, 1] else l
  let e := { e with
    cursor_x := min (e.width : Int) (l.getD 1 0 : Int) - 1,
    cursor_y := min (e.height : Int) (l.getD 0 0 : Int) - 1,
    cursor_eol := false }
  if ¬ e.alt_mode then
    { e with active_rows := max (e.cursor_y + 1).toNat e.active_rows }
  else e

/-- `csi_J` Erase in Display (lineterm.py:1452). -/
def Emu.csi_J (e : Emu) (l : List Nat) : Emu :=
  if l.headD 0 = 0 then
    if e.cursor_x = 0 then e.zero_lines e.cursor_y ((e.height : Int) - 1)
    else e.zero e.cursor_y e.cursor_x ((e.height : Int) - 1)
      ((e.width : Int) - 1)
  else if l.headD 0 = 1 then
    if e.cursor_x = (e.width : Int) - 1 then e.zero_lines 0 e.cursor_y
    else e.zero 0 0 e.cursor_y e.cursor_x
  else if l.headD 0 = 2 then e.zero_screen
  else e

/-- `csi_K` Erase in Line (lineterm.py:1470). -/
def Emu.csi_K (e : Emu) (l : List Nat) : Emu :=
  if l.headD 0 = 0 then
    e.zero e.cursor_y e.cursor_x e.cursor_y ((e.width : Int) - 1)
  else if l.headD 0 = 1 then e.zero e.cursor_y 0 e.cursor_y e.cursor_x
  else if l.headD 0 = 2 then e.zero_lines e.cursor_y e.cursor_y
  else e

/-- `csi_L` Insert lines (lineterm.py:1482). -/
def Emu.csi_L (e : Emu) (l : List Nat) : Emu :=
  (List.range (l.headD 0)).foldl (fun e _ =>
    if e.cursor_y < e.scroll_bot then e.scroll_down e.cursor_y e.scroll_bot
    else e) e

/-- `csi_M` Delete lines (lineterm.py:1487). -/
def Emu.csi_M (e : Emu) (l : List Nat) : Emu :=
  if e.scroll_top ≤ e.cursor_y ∧ e.cursor_y ≤ e.scroll_bot then
    (List.range (l.headD 0)).foldl
      (fun e _ => e.scroll_up e.cursor_y e.scroll_bot) e
  else e

/-- `csi_P` Delete characters (lineterm.py:1492). -/
def Emu.csi_P (e : Emu) (l : List Nat) : Emu :=
  let en := e.peek e.cursor_y e.cursor_x e.cursor_y (e.width : Int)
  let cy := e.cursor_y
  let cx := e.cursor_x
  let e := e.csi_K [0]
  e.poke cy cx (en.drop (l.headD 0))

/-- `csi_X` Erase characters (lineterm.py:1499). -/
def Emu.csi_X (e : Emu) (l : List Nat) : Emu :=
  e.zero e.cursor_y e.cursor_x e.cursor_y (e.cursor_x + (l.headD 0 : Int))

/-- `csi_d` Vertical Position Absolute (lineterm.py:1512). -/
def Emu.csi_d (e : Emu) (l : List Nat) : Emu :=
  let e := { e with
    cursor_y := min (e.height : Int) (l.headD 0 : Int) - 1 }
  if ¬ e.alt_mode then
    { e with active_rows := max (e.cursor_y + 1).toNat e.active_rows }
  else e

/-- `csi_h` Set private mode (lineterm.py:1526).  The cookie test is
`str(l[1]) == self.cookie`. -/
def Emu.csi_h (e : Emu) (l : List Nat) : Except PyErr Emu := do
  let l0 := l.headD 0
  if l0 = 1150 ∨ l0 = 1155 then
    if ¬ e.alt_mode then
      let e := { e with
        gterm_code := some l0,
        gterm_validated :=
          decide (l.length ≥ 2) && decide (toString (l.getD 1 0) = e.cookie),
        gterm_buf := some [],
        gterm_buf_size := 0,
        gterm_entry_index := some (e.screen_buf.entry_index + 1) }
      if l0 ≠ 1150 then e.scroll_screen (some e.active_rows)
      else .ok e
    else .ok e
  else if l0 = 47 ∨ l0 = 1047 ∨ l0 = 1049 then
    let e := { e with alt_mode := true, current_nul := default_nul }
    .ok e.zero_screen
  else .ok e

/-- `csi_l` Reset private mode (lineterm.py:1553). -/
def Emu.csi_l (e : Emu) (l : List Nat) : Emu :=
  let l0 := l.headD 0
  if l0 = 1150 ∨ l0 = 1155 then e
  else if l0 = 47 ∨ l0 = 1047 ∨ l0 = 1049 then
    { e with
      alt_mode := false, current_nul := default_nul,
      cursor_y := max 0 ((e.active_rows : Int) - 1), cursor_x := 0 }
  else e

/-- `csi_m` Select Graphic Rendition (lineterm.py:1571). -/
def Emu.csi_m (e : Emu) (l : List Nat) : Emu :=
  l.foldl (fun e i =>
    if i = 0 ∨ i = 39 ∨ i = 49 ∨ i = 27 then
      { e with current_nul := default_nul }
    else if i = 1 then
      { e with current_nul := e.current_nul ||| (bold_style <<< UNI24) }
    else if i = 7 then
      { e with current_nul := inverse_style <<< UNI24 }
    else if 30 ≤ i ∧ i ≤ 37 then
      { e with current_nul :=
          (e.current_nul.land 0xf8ffffff) ||| ((i - 30) <<< UNI24) }
    else if 40 ≤ i ∧ i ≤ 47 then
      { e with current_nul :=
          (e.current_nul.land 0x8fffffff) ||| ((i - 40) <<< (UNI24 + STYLE4)) }
    else e) e

/-- `csi_r` Set scrolling region (lineterm.py:1595). -/
def Emu.csi_r (e : Emu) (l : List Nat) : Emu :=
  let l := if l.length < 2 then [1, e.height] else l
  let st := min ((e.height : Int) - 1) ((l.getD 0 0 : Int) - 1)
  let sb := min ((e.height : Int) - 1) ((l.getD 1 0 : Int) - 1)
  { e with scroll_top := st, scroll_bot := max st sb }

/-- The `csi_seq` table (lineterm.py:795-804): default parameters are
`[0]` for `J`/`K` and `[1]` for every other handled final byte. -/
def csiDefaults (c : Nat) : List Nat :=
  if c = 74 ∨ c = 75 then [0] else [1]

/-- The handler for each CSI final byte; `none` for finals in the regex
class without a `csi_` method (`g n q t`), which are ignored. -/
def csiHandler (c : Nat) :
    Option (Emu → List Nat → Except PyErr Emu) :=
  if c = 64 then some (fun e l => .ok (e.csi_at l))          -- @
  else if c = 65 then some (fun e l => .ok (e.csi_A l))
  else if c = 66 then some (fun e l => .ok (e.csi_B l))
  else if c = 67 then some (fun e l => .ok (e.csi_C l))
  else if c = 68 then some (fun e l => .ok (e.csi_D l))
  else if c = 69 then some (fun e l => .ok (e.csi_E l))
  else if c = 70 then some (fun e l => .ok (e.csi_F l))
  else if c = 71 ∨ c = 96 then some (fun e l => .ok (e.csi_G l)) -- G, `
  else if c = 72 ∨ c = 102 then some (fun e l => .ok (e.csi_H l)) -- H, f
  else if c = 74 then some (fun e l => .ok (e.csi_J l))
  else if c = 75 then some (fun e l => .ok (e.csi_K l))
  else if c = 76 then some (fun e l => .ok (e.csi_L l))
  else if c = 77 then some (fun e l => .ok (e.csi_M l))
  else if c = 80 then some (fun e l => .ok (e.csi_P l))
  else if c = 88 then some (fun e l => .ok (e.csi_X l))
  else if c = 97 then some (fun e l => .ok (e.csi_C l))      -- a = csi_a
  else if c = 99 then some (fun e _ => .ok e)                -- c: pass
  else if c = 100 then some (fun e l => .ok (e.csi_d l))
  else if c = 101 then some (fun e l => .ok (e.csi_B l))     -- e = csi_e
  else if c = 104 then some Emu.csi_h                        -- h
  else if c = 108 then some (fun e l => .ok (e.csi_l l))
  else if c = 109 then some (fun e l => .ok (e.csi_m l))
  else if c = 114 then some (fun e l => .ok (e.csi_r l))
  else if c = 115 then some (fun e _ => .ok e.esc_save)      -- s
  else if c = 117 then some (fun e _ => .ok e.esc_restore)   -- u
  else none

/-- Split a parameter string on `;` (code 59). -/
def splitSemis : UStr → List UStr
  | [] => [[]]
  | c :: rest =>
    if c = 59 then [] :: splitSemis rest
    else
      match splitSemis rest with
      | t :: more => (c :: t) :: more
      | [] => [[c]]

/-- Decimal value of a digit string (components of the CSI parameter
string are digit-only by the regex). -/
def natOfDigits (u : UStr) : Nat :=
  u.foldl (fun acc c => acc * 10 + (c - 48)) 0

/-- `[int(i) for i in s.split(';')]` with ValueError (an empty
component) yielding `[]` (lineterm.py:1393-1396). -/
def parseParams (params : UStr) : List Nat :=
  let comps := splitSemis params
  if comps.any (fun c => c.isEmpty) then []
  else comps.map natOfDigits

/-- `csi_dispatch` (lineterm.py:1387). -/
def Emu.csi_dispatch (e : Emu) (params : UStr) (final : Nat) :
    Except PyErr Emu :=
  match csiHandler final with
  | none => .ok e
  | some f =>
    let l := parseParams params
    let l := if l.isEmpty then csiDefaults final else l
    f e l

/-- Membership of the CSI-final character class
`[@ABCDEFGHJKLMPXacdefghlmnqrstu``]`. -/
def isCsiFinal (c : Nat) : Bool :=
  c = 64 ∨ (65 ≤ c ∧ c ≤ 72) ∨ c = 74 ∨ c = 75 ∨ c = 76 ∨ c = 77 ∨
  c = 80 ∨ c = 88 ∨ c = 96 ∨ c = 97 ∨ c = 99 ∨ c = 100 ∨ c = 101 ∨
  c = 102 ∨ c = 103 ∨ c = 104 ∨ c = 108 ∨ c = 109 ∨ c = 110 ∨ c = 113 ∨
  c = 114 ∨ c = 115 ∨ c = 116 ∨ c = 117

/-- Anchored match of the CSI regex
`\x1b\[\??([0-9;]*)([@ABCDEFGHJKLMPXacdefghlmnqrstu``])`
(lineterm.py:787), returning the two groups. -/
def csiMatch (buf : UStr) : Option (UStr × Nat) :=
  match buf with
  | 27 :: 91 :: rest =>
    let rest2 := if rest.head? = some 63 then rest.tail else rest
    let params := rest2.takeWhile
      (fun c => decide ((48 ≤ c ∧ c ≤ 57) ∨ c = 59))
    match (rest2.drop params.length).head? with
    | some c => if isCsiFinal c then some (params, c) else none
    | none => none
  | _ => none

/-- Anchored match of the OSC regex `\x1b\]([^\x07]+)\x07`
(lineterm.py:788); its handler is `esc_ignore`. -/
def oscMatch (buf : UStr) : Bool :=
  match buf with
  | 27 :: 93 :: rest =>
    let body := rest.takeWhile (fun c => decide (c ≠ 7))
    decide (body.length ≥ 1) && decide ((rest.drop body.length).head? = some 7)
  | _ => false

/-- The single-byte keys of the `esc_seq` table (lineterm.py:741-752);
`None` handlers were replaced by `esc_ignore`. -/
def ctrlHandler (b : Nat) : Option (Emu → Except PyErr Emu) :=
  if b = 0x00 ∨ b = 0x07 ∨ b = 0x0e ∨ b = 0x0f then some (fun e => .ok e)
  else if b = 0x05 then some (fun e => .ok e.esc_da)
  else if b = 0x08 then some (fun e => .ok e.esc_bs)
  else if b = 0x09 then some Emu.esc_tab
  else if b = 0x0a ∨ b = 0x0b ∨ b = 0x0c then some Emu.cursor_down
  else if b = 0x0d then some (fun e => .ok e.esc_cr)
  else none

/-- Membership test `i in self.esc_seq` for a single byte
(lineterm.py:1940): only single-byte keys can match. -/
def is_single_ctrl (b : Nat) : Bool := (ctrlHandler b).isSome

/-- The literal `esc_seq` table (lineterm.py:741-780). -/
def escSeqLookup : UStr → Option (Emu → Except PyErr Emu)
  | [b] => ctrlHandler b
  | [27, 35, 56] => some (fun e => .ok e)
  | [27, 61] => some (fun e => .ok e)
  | [27, 62] => some (fun e => .ok e)
  | [27, 40, 48] => some (fun e => .ok e)
  | [27, 40, 65] => some (fun e => .ok e)
  | [27, 40, 66] => some (fun e => .ok e)
  | [27, 91, 99] => some (fun e => .ok e.esc_da)
  | [27, 91, 48, 99] => some (fun e => .ok e.esc_da)
  | [27, 91, 62, 99] => some (fun e => .ok e.esc_sda)
  | [27, 91, 62, 48, 99] => some (fun e => .ok e.esc_sda)
  | [27, 91, 53, 110] => some (fun e => .ok e.esc_sr)
  | [27, 91, 54, 110] => some (fun e => .ok e.esc_cpr)
  | [27, 91, 120] => some (fun e => .ok e.esc_tpr)
  | [27, 93, 82] => some (fun e => .ok e)
  | [27, 55] => some (fun e => .ok e.esc_save)
  | [27, 56] => some (fun e => .ok e.esc_restore)
  | [27, 68] => some Emu.cursor_down
  | [27, 69] => some Emu.esc_nel
  | [27, 72] => some (fun e => .ok e)
  | [27, 77] => some (fun e => .ok e.esc_ri)
  | [27, 78] => some (fun e => .ok e)
  | [27, 79] => some (fun e => .ok e)
  | [27, 90] => some (fun e => .ok e.esc_da)
  | [27, 97] => some (fun e => .ok e)
  | [27, 99] => some (fun e => .ok e.reset)
  | [27, 110] => some (fun e => .ok e)
  | [27, 111] => some (fun e => .ok e)
  | _ => none

/-- `Terminal.escape` (lineterm.py:1608): returns the updated state and
the new pending buffer (emptied on a length overflow or a match). -/
def Emu.escape (e : Emu) (buf : UStr) : Except PyErr (Emu × UStr) :=
  if buf.length > 32 then .ok (e, [])
  else
    match escSeqLookup buf with
    | some h =>
      match h e with
      | .error err => .error err
      | .ok e2 => .ok (e2, [])
    | none =>
      match csiMatch buf with
      | some pf =>
        match e.csi_dispatch pf.1 pf.2 with
        | .error err => .error err
        | .ok e2 => .ok (e2, [])
      | none =>
        if oscMatch buf then .ok (e, [])
        else .ok (e, buf)

/-- Code points of a Lean string (all source literals are ASCII). -/
def stringToU (s : String) : UStr := s.toList.map Char.toNat

/-- Decode a code-point list back into a Lean string. -/
def ustrToString (u : UStr) : String := String.mk (u.map Char.ofNat)

/-- Python whitespace test (the class `\s` / `str.strip` set). -/
def isPySpace (c : Nat) : Bool :=
  decide (c = 32 ∨ c = 9 ∨ c = 10 ∨ c = 13 ∨ c = 11 ∨ c = 12)

/-- `str.lstrip()` (lineterm.py:1662). -/
def lstripU (s : UStr) : UStr := s.dropWhile isPySpace

/-- `s.replace("\r\n","\n").replace("\r","\n")` (lineterm.py:1683). -/
def normNl : UStr → UStr
  | [] => []
  | 13 :: 10 :: rest => 10 :: normNl rest
  | 13 :: rest => 10 :: normNl rest
  | c :: rest => c :: normNl rest

/-- `cgi.escape` (quote=False) on one character: `&` `<` `>` become
entities. -/
def cgi_escape_char (c : Nat) : UStr :=
  if c = 38 then [38, 97, 109, 112, 59]
  else if c = 60 then [38, 108, 116, 59]
  else if c = 62 then [38, 103, 116, 59]
  else [c]

/-- `cgi.escape(content)` (lineterm.py:1674). -/
def cgi_escape (s : UStr) : UStr := (s.map cgi_escape_char).join

/-- `text.partition(sep)` for a multi-character separator, `none` when
the separator does not occur. -/
def pyPartitionSub (s sep : UStr) : Option (UStr × UStr) :=
  match findSub s sep with
  | some i => some (s.take i, s.drop (i + sep.length))
  | none => none

/-- `parse_headers` (lineterm.py:250).  `json.loads` is the abstract
parameter `jsonLoads`; a `.error msg` result models a parse exception
with `str(excp) = msg`.  The non-JSON MIME-header branch is a `pass` in
the source. -/
def parse_headers (jsonLoads : UStr → Except UStr Headers) (text : UStr) :
    Headers × UStr :=
  if text.head? = some 60 then (Headers.default, text)
  else
    let part :=
      match pyPartitionSub text [13, 10, 13, 10] with
      | some p => some p
      | none =>
        match pyPartitionSub text [10, 10] with
        | some p => some p
        | none => pyPartitionSub text [13, 13]
    match part with
    | none => (Headers.default, text)
    | some (head_str, tail_str) =>
      if head_str.head? = some 123 then
        match jsonLoads head_str with
        | .ok h => (h, tail_str)
        | .error msg =>
          ({ Headers.default with
             json_error := true, content_type := "text/plain" }, msg)
      else (Headers.default, text)

/-- The `FILE_EXTENSIONS` dict (lineterm.py:59) as a total lookup with
the `.get(-, "")` default. -/
def FILE_EXTENSIONS_lookup (ext : String) : String :=
  if ext = "css" then "css"
  else if ext = "htm" ∨ ext = "html" then "html"
  else if ext = "js" then "javascript"
  else if ext = "py" then "python"
  else if ext = "xml" then "xml"
  else ""

/-- `os.path.splitext(p)[1]`: the last dot-suffix (with its dot) of the
final path component; leading dots of the component never start an
extension. -/
def splitextExt (p : String) : String :=
  let comp := (p.toList.reverse.takeWhile (fun c => c ≠ '/')).reverse
  let lead := comp.takeWhile (fun c => c = '.')
  let rest := comp.drop lead.length
  if rest.contains '.' then
    String.mk ('.' :: (rest.reverse.takeWhile (fun c => c ≠ '.')).reverse)
  else ""

/-- ASCII lower-casing, as `str.lower` on the extension. -/
def lowerStr (s : String) : String := String.mk (s.toList.map Char.toLower)

/-- The `"ERROR in opening file '%s': %s"` content of the edit-file
error path (lineterm.py:1703); the exception text is not modeled. -/
def editErrContent (filepath : String) : UStr :=
  stringToU ("ERROR in opening file '" ++ filepath ++ "'")

/-- The `response_type == "edit_file"` block of `gterm_append`
(lineterm.py:1689-1707).  `statRead p = some (size, data)` models a
successful `os.stat` plus `open/read`; `none` models an OSError.  On
any failure (including the size check) the headers are rewritten to an
`error_message` with `text/plain` content. -/
def editFileBranch (statRead : String → Option (Nat × UStr))
    (headers : Headers) (content : UStr) : Headers × UStr :=
  let rp := headers.x_gterm_parameters
  let filepath := rp.filepath.getD ""
  let ft : Option String :=
    if rp.filetype.isNone then
      some (if splitextExt filepath ≠ "" then
              FILE_EXTENSIONS_lookup (lowerStr ((splitextExt filepath).drop 1))
            else "")
    else rp.filetype
  let headers := { headers with
    x_gterm_parameters := { rp with filetype := ft } }
  let errRes : Headers × UStr :=
    ({ headers with
       x_gterm_response := "error_message",
       x_gterm_parameters := RespParams.empty,
       content_type := "text/plain" }, editErrContent filepath)
  match statRead filepath with
  | some sd =>
    if sd.1 > MAX_PAGELET_BYTES then errRes
    else (headers, sd.2)
  | none => errRes

/-- `\w` class membership. -/
def isWordCode (c : Nat) : Bool :=
  decide ((48 ≤ c ∧ c ≤ 57) ∨ (65 ≤ c ∧ c ≤ 90) ∨ (97 ≤ c ∧ c ≤ 122) ∨
    c = 95)

/-- The option-parsing loop of the gterm directive (lineterm.py:1713):
split on whitespace, partition each component at the first `=`.
`urllib.unquote` on the value is modeled as the identity (no claim
observes percent-decoding). -/
def parseOptList (opts : UStr) : List (String × UStr) :=
  (splitWS opts).map (fun comp =>
    match findSub comp [61] with
    | some i => (ustrToString (comp.take i), comp.drop (i + 1))
    | none => (ustrToString comp, []))

/-- Build the option dict consumed by `scroll_buf_up` from the parsed
directive options (later duplicates win, as in the dict assignment);
only the keys the ScreenBuf ever reads are retained. -/
def optsFromDirective (kvs : List (String × UStr)) : ScrollOpts :=
  kvs.foldl (fun o kv =>
    if kv.1 = "overwrite" then { o with overwrite := ¬ kv.2.isEmpty }
    else if kv.1 = "blob" then
      { o with blob := if kv.2.isEmpty then none else some (ustrToString kv.2) }
    else if kv.1 = "form_input" then { o with form_input := ¬ kv.2.isEmpty }
    else if kv.1 = "add_class" then { o with add_class := ustrToString kv.2 }
    else o) ScrollOpts.empty

/-- `GTERM_DIRECTIVE_RE.match(content)` for
`^\s*<!--gterm\s+(\w+)(\s.*)?-->` (lineterm.py:66), returning the
directive word, its options and the content after the match.  The
regex's greedy scan for `-->` is modeled with the first occurrence; the
two differ only when the option text itself contains `-->`. -/
def gtermDirective (content : UStr) :
    Option (String × List (String × UStr) × UStr) :=
  let rest := content.drop (content.takeWhile isPySpace).length
  if [60, 33, 45, 45, 103, 116, 101, 114, 109].isPrefixOf rest then
    let rest2 := rest.drop 9
    let sp2 := rest2.takeWhile isPySpace
    if sp2.isEmpty then none
    else
      let rest3 := rest2.drop sp2.length
      let word := rest3.takeWhile isWordCode
      if word.isEmpty then none
      else
        let rest4 := rest3.drop word.length
        match findSub rest4 [45, 45, 62] with
        | none => none
        | some i =>
          let optsPart := rest4.take i
          if optsPart.isEmpty ∨
             (isPySpace (optsPart.headD 0) ∧ ¬ (optsPart.drop 1).contains 10)
          then
            some (ustrToString word, parseOptList optsPart, rest4.drop (i + 3))
          else none
  else none

/-- `graphterm_output` (lineterm.py:1751) in its `from_buffer=False`
form: store the params/content pair in `gterm_output_buf` (the Base64
encoding of the content is modeled as the identity) and fire the
`graphterm_output` callback. -/
def Emu.graphterm_output (e : Emu) (validated : Bool) (headers : Headers)
    (content : UStr) : Emu :=
  { e with
    gterm_output_buf := some (validated, headers, content),
    events := e.events ++ [Event.graphterm_output validated headers content] }

/-- The unvalidated-content branch of `gterm_append`
(lineterm.py:1667-1684).  `lxml.html` text extraction is the abstract
parameter `lxmlStrip`: `some f` with `f content = some c` models a
successful import and extraction `c`; `none`, or `f content = none`,
models the `except` path and selects the `cgi.escape` fallback. -/
def gterm_dispatch_unvalidated (lxmlStrip : Option (UStr → Option UStr))
    (e : Emu) (headers : Headers) (content : UStr) : Except PyErr Emu :=
  let stripped : Option UStr :=
    match lxmlStrip with
    | some f => f content
    | none => none
  let hc : Headers × UStr :=
    match stripped with
    | some c => ({ headers with content_type := "text/plain" }, c)
    | none => (headers, cgi_escape content)
  if hc.1.x_gterm_response ≠ "" then
    let h2 := { hc.1 with
      x_gterm_response := "pagelet",
      x_gterm_parameters := RespParams.empty,
      content_length := some hc.2.length }
    .ok (e.graphterm_output false h2 hc.2)
  else
    let first := (normNl hc.2).takeWhile (fun c => decide (c ≠ 10))
    match (e.cur_buf).scroll_buf_up (first ++ [46, 46, 46]) none 0 "" ""
        ScrollOpts.empty none with
    | .error err => .error err
    | .ok b2 => .ok (e.set_cur_buf b2)

/-- The pagelet branch of `gterm_append` (lineterm.py:1662-1744):
update, parse headers, then dispatch on validation and response type
(`del headers[...]` in the create_blob branch is modeled by resetting
the two fields to their defaults). -/
def Emu.gterm_pagelet (jsonLoads : UStr → Except UStr Headers)
    (lxmlStrip : Option (UStr → Option UStr))
    (statRead : String → Option (Nat × UStr))
    (e : Emu) (chunks : List UStr) : Except PyErr Emu := do
  let e ← e.update
  let gterm_output := lstripU chunks.join
  let pc := parse_headers jsonLoads gterm_output
  let response_type := pc.1.x_gterm_response
  if ¬ e.gterm_validated then
    gterm_dispatch_unvalidated lxmlStrip e pc.1 pc.2
  else
    let hc :=
      if response_type = "edit_file" then editFileBranch statRead pc.1 pc.2
      else pc
    let headers := hc.1
    let content := hc.2
    if response_type = "" then
      let rp : String × ScrollOpts × UStr :=
        match gtermDirective content with
        | some d => (d.1, optsFromDirective d.2.1, d.2.2)
        | none => ("pagelet", ScrollOpts.empty, content)
      match (e.cur_buf).scroll_buf_up [] none 0 "" rp.1 rp.2.1
          (some rp.2.2) with
      | .error err => .error err
      | .ok b2 => .ok (e.set_cur_buf b2)
    else if response_type = "create_blob" then
      let h2 := { headers with
        x_gterm_response := "", x_gterm_parameters := RespParams.empty }
      match headers.x_gterm_parameters.blob with
      | none => .ok e
      | some blob_id =>
        if blob_id = "" then .ok e
        else if headers.content_length.isNone then .ok e
        else
          .ok { e with
            events := e.events ++ [Event.create_blob blob_id h2 content] }
    else if response_type = "frame_msg" then
      .ok { e with
        events := e.events ++ [Event.frame_msg
          (headers.x_gterm_parameters.user.getD "")
          (headers.x_gterm_parameters.frame.getD "") content] }
    else
      let h2 := { headers with content_length := some content.length }
      .ok (e.graphterm_output true h2 content)

/-- The ESC-terminated tail of `gterm_append` (lineterm.py:1646-1749):
the overflow branch assigns into the unbound local `headers`
(lineterm.py:1650), a NameError; otherwise dispatch on the code, then
reset the capture fields. -/
def Emu.gterm_finalize (jsonLoads : UStr → Except UStr Headers)
    (lxmlStrip : Option (UStr → Option UStr))
    (statRead : String → Option (Nat × UStr))
    (e : Emu) : Except PyErr Emu := do
  let chunks := e.gterm_buf.getD []
  let e2 ←
    if e.gterm_buf_size > MAX_PAGELET_BYTES then
      throw PyErr.nameError
    else if e.gterm_code = some 1150 then
      let current_dir := chunks.join
      if current_dir ≠ [] then e.expect_prompt (ustrToString current_dir)
      else pure e
    else if chunks ≠ [] then
      Emu.gterm_pagelet jsonLoads lxmlStrip statRead e chunks
    else pure e
  .ok { e2 with
    gterm_code := none, gterm_buf := none, gterm_buf_size := 0,
    gterm_validated := false, gterm_entry_index := none }

/-- `Terminal.gterm_append` (lineterm.py:1634): accumulate up to the
first ESC, then finalize; returns the unconsumed `sep + suffix`. -/
def Emu.gterm_append (jsonLoads : UStr → Except UStr Headers)
    (lxmlStrip : Option (UStr → Option UStr))
    (statRead : String → Option (Nat × UStr))
    (e : Emu) (s : UStr) : Except PyErr (Emu × UStr) :=
  let chunk := s.takeWhile (fun c => decide (c ≠ 27))
  let rest := s.drop chunk.length
  let e := { e with gterm_buf_size := e.gterm_buf_size + chunk.length }
  let e := if e.gterm_buf_size ≤ MAX_PAGELET_BYTES then
      { e with gterm_buf := e.gterm_buf.map (fun cs => cs ++ [chunk]) }
    else e
  if rest.isEmpty then .ok (e, [])
  else
    match Emu.gterm_finalize jsonLoads lxmlStrip statRead e with
    | .error err => .error err
    | .ok e2 => .ok (e2, rest)

/-- A terminal: the emulator state plus the pending escape buffer
`self.buf` (lineterm.py:733), kept outside `Emu` so that it is evident
no handler can reach it. -/
structure Term where
  emu : Emu
  buf : UStr
deriving DecidableEq, Repr

/-- The per-byte body of the `write` loop (lineterm.py:1939-1946). -/
def Term.handleByte (t : Term) (c : Nat) : Except PyErr Term :=
  if t.buf.length ≠ 0 ∨ is_single_ctrl c then
    match t.emu.escape (t.buf ++ [c]) with
    | .error err => .error err
    | .ok eb => .ok { emu := eb.1, buf := eb.2 }
  else if c = 27 then .ok { t with buf := t.buf ++ [27] }
  else
    match t.emu.echo c with
    | .error err => .error err
    | .ok e2 => .ok { t with emu := e2 }

mutual

/-- `Terminal.write` (lineterm.py:1927), split into the chunk entry
point (`writeChunk`, the body of `write` itself) and the byte loop
(`writeBytes`); the recursive `self.write(s[k:])` alternation is made
structural with a fuel argument — `fuel = 0` returns the state
unchanged and is never reached from `Term.write`, whose initial fuel
`2*len(s)+2` bounds the number of iterations. -/
def writeChunk (jsonLoads : UStr → Except UStr Headers)
    (lxmlStrip : Option (UStr → Option UStr))
    (statRead : String → Option (Nat × UStr)) :
    Nat → Term → UStr → Except PyErr Term
  | 0, t, _ => .ok t
  | fuel + 1, t, s =>
    if t.emu.gterm_buf.isSome then
      match Emu.gterm_append jsonLoads lxmlStrip statRead t.emu s with
      | .error err => .error err
      | .ok es =>
        if es.2.isEmpty then .ok { emu := es.1, buf := t.buf }
        else if es.1.gterm_buf.isSome then .error .assertionError
        else
          writeBytes jsonLoads lxmlStrip statRead fuel
            { emu := { es.1 with needs_updating := true }, buf := t.buf } es.2
    else
      if s.isEmpty then .ok t
      else
        writeBytes jsonLoads lxmlStrip statRead fuel
          { t with emu := { t.emu with needs_updating := true } } s

/-- The `for k, i in enumerate(s)` loop of `write` (lineterm.py:1936):
when a handler opened a gterm capture, the remaining bytes re-enter
`write`. -/
def writeBytes (jsonLoads : UStr → Except UStr Headers)
    (lxmlStrip : Option (UStr → Option UStr))
    (statRead : String → Option (Nat × UStr)) :
    Nat → Term → UStr → Except PyErr Term
  | 0, t, _ => .ok t
  | fuel + 1, t, s =>
    match s with
    | [] => .ok t
    | c :: rest =>
      match t.handleByte c with
      | .error err => .error err
      | .ok t2 =>
        if t2.emu.gterm_buf.isSome then
          writeChunk jsonLoads lxmlStrip statRead fuel t2 rest
        else writeBytes jsonLoads lxmlStrip statRead fuel t2 rest

end

/-- `Terminal.write` entry point (the wall-clock `output_time` is
dropped). -/
def Term.write (jsonLoads : UStr → Except UStr Headers)
    (lxmlStrip : Option (UStr → Option UStr))
    (statRead : String → Option (Nat × UStr))
    (t : Term) (s : UStr) : Except PyErr Term :=
  writeChunk jsonLoads lxmlStrip statRead (2 * s.length + 2) t s

/-- `Terminal.read` (lineterm.py:1948): return the reply buffer and
clear it. -/
def Term.read (t : Term) : String × Term :=
  (t.emu.outbuf, { t with emu := { t.emu with outbuf := "" } })

/-- `Terminal.__init__` + `reset` (lineterm.py:705-830): the initial
terminal state (wall-clock fields, logfile and the pty fd are not
modeled). -/
def Emu.init (height width : Nat) (cookie : String) (pdelim : Pdelim) :
    Emu :=
  Emu.reset {
    width := width, height := height, cookie := cookie, pdelim := pdelim,
    screen_buf := ScreenBuf.init pdelim,
    note_count := 0, note_screen_buf := ScreenBuf.init none,
    note_cells := none, note_input := [], note_prompts := [],
    note_shell := false, needs_updating := false,
    main_screen := Screen.blank width height,
    alt_screen := Screen.blank width height,
    scroll_top := 0, scroll_bot := 0,
    cursor_x_bak := 0, cursor_y_bak := 0,
    cursor_x := 0, cursor_y := 0, cursor_eol := false,
    current_nul := default_nul, echobuf := [], echobuf_count := 0,
    outbuf := "", last_html := "", active_rows := 0, current_dir := "",
    current_meta := none, gterm_code := none, gterm_buf := none,
    gterm_buf_size := 0, gterm_entry_index := none,
    gterm_validated := false, gterm_output_buf := none,
    alt_mode := false, command_path := [], events := [] }

/-- A freshly constructed terminal (`self.buf = ""`). -/
def Term.init (height width : Nat) (cookie : String) (pdelim : Pdelim) :
    Term :=
  { emu := Emu.init height width cookie pdelim, buf := [] }

/-- A JSON decoder that always fails (never reached in the runs below:
no input carries a JSON header block). -/
def jl0 : UStr → Except UStr Headers := fun _ => .error []

/-- A filesystem where every `os.stat` raises. -/
def st0 : String → Option (Nat × UStr) := fun _ => none

/-- C10: `Terminal.read` is destructive: it returns the buffered
device-reply bytes and clears the buffer, so a second `read()` with no
intervening write returns the empty string. -/
theorem C10_read_destructive (t : Term) :
    t.read.1 = t.emu.outbuf ∧ (t.read.2).read.1 = "" :=
  ⟨rfl, rfl⟩

/-- C3: when pagelet capture terminates with
`gterm_buf_size > MAX_PAGELET_BYTES`, the overflow branch of
`gterm_append` (lineterm.py:1650) assigns into the local name `headers`
before any binding of it exists, so the write raises NameError instead
of synthesizing an error pagelet: the session fails on this input.  The
starting state is a terminal inside a pagelet capture (as set up by
`csi_h` 1155) that has accumulated `MAX_PAGELET_BYTES + 1` bytes. -/
theorem C3_overflow_raises_nameerror :
    Term.write jl0 none st0
      { emu := { Emu.init 2 3 "k" none with
                 gterm_code := some 1155, gterm_buf := some [],
                 gterm_buf_size := MAX_PAGELET_BYTES + 1 },
        buf := [] } [27] = .error .nameError := by
  rfl

/-- C1 counterexample: the claim asserts that CSI cursor-positioning
commands with any integer parameters, including 0, leave the cursor in
bounds; but writing `ESC [ 0 G` to a fresh terminal drives `cursor_x`
to `min(width, 0) - 1 = -1`. -/
theorem C1_counterexample :
    (Term.write jl0 none st0 (Term.init 2 3 "k" none)
        [27, 91, 48, 71]).map (fun t => t.emu.cursor_x) = .ok (-1) := by
  rfl

/-- C1 (amended): the cursor-positioning handlers `csi_G`, `csi_H` and
`csi_d` leave the cursor inside `0 ≤ cursor_x < width` and
`0 ≤ cursor_y < height` whenever every supplied parameter is at least 1
(parameter 0, permitted by the claim, instead yields coordinate −1). -/
theorem C1_cursor_bounds_csi (e : Emu) (l : List Nat)
    (hw : 1 ≤ e.width) (hh : 1 ≤ e.height) (hne : l ≠ [])
    (hl : ∀ x ∈ l, 1 ≤ x) :
    (0 ≤ (e.csi_G l).cursor_x ∧ (e.csi_G l).cursor_x < (e.width : Int)) ∧
    (0 ≤ (e.csi_H l).cursor_x ∧ (e.csi_H l).cursor_x < (e.width : Int) ∧
     0 ≤ (e.csi_H l).cursor_y ∧ (e.csi_H l).cursor_y < (e.height : Int)) ∧
    (0 ≤ (e.csi_d l).cursor_y ∧ (e.csi_d l).cursor_y < (e.height : Int)) := by
  have hhead : 1 ≤ l.headD 0 := by
    cases l with
    | nil => exact absurd rfl hne
    | cons a t => exact hl a (List.mem_cons_self a t)
  have hgetD : ∀ i, i < l.length → 1 ≤ l.getD i 0 := by
    intro i hi
    have : l.getD i 0 = l[i] := by
      rw [List.getD_eq_getElem?_getD, List.getElem?_eq_getElem hi]
      rfl
    rw [this]
    exact hl _ (List.getElem_mem hi)
  have h01 : 1 ≤ (if l.length < 2 then [1, 1] else l).getD 0 0 ∧
      1 ≤ (if l.length < 2 then [1, 1] else l).getD 1 0 := by
    by_cases hlen : l.length < 2
    · rw [if_pos hlen]; exact ⟨le_refl 1, le_refl 1⟩
    · rw [if_neg hlen]
      push_neg at hlen
      exact ⟨hgetD 0 (by omega), hgetD 1 (by omega)⟩
  have hwI : (1 : Int) ≤ (e.width : Int) := by exact_mod_cast hw
  have hhI : (1 : Int) ≤ (e.height : Int) := by exact_mod_cast hh
  refine ⟨?_, ?_, ?_⟩
  · have hcx : (e.csi_G l).cursor_x =
        min (e.width : Int) (l.headD 0 : Int) - 1 := by
      simp only [Emu.csi_G]
    have hd : (1 : Int) ≤ (l.headD 0 : Int) := by exact_mod_cast hhead
    have hm1 := min_le_left (e.width : Int) (l.headD 0 : Int)
    have hm2 : (1 : Int) ≤ min (e.width : Int) (l.headD 0 : Int) :=
      le_min hwI hd
    rw [hcx]
    omega
  · have hcx : (e.csi_H l).cursor_x = min (e.width : Int)
        ((if l.length < 2 then [1, 1] else l).getD 1 0 : Int) - 1 := by
      simp only [Emu.csi_H]
      split <;> rfl
    have hcy : (e.csi_H l).cursor_y = min (e.height : Int)
        ((if l.length < 2 then [1, 1] else l).getD 0 0 : Int) - 1 := by
      simp only [Emu.csi_H]
      split <;> rfl
    have hx0 : (1 : Int) ≤
        ((if l.length < 2 then [1, 1] else l).getD 1 0 : Int) := by
      exact_mod_cast h01.2
    have hy0 : (1 : Int) ≤
        ((if l.length < 2 then [1, 1] else l).getD 0 0 : Int) := by
      exact_mod_cast h01.1
    have hm1 := min_le_left (e.width : Int)
      ((if l.length < 2 then [1, 1] else l).getD 1 0 : Int)
    have hm2 := min_le_left (e.height : Int)
      ((if l.length < 2 then [1, 1] else l).getD 0 0 : Int)
    have hm3 : (1 : Int) ≤ min (e.width : Int)
        ((if l.length < 2 then [1, 1] else l).getD 1 0 : Int) :=
      le_min hwI hx0
    have hm4 : (1 : Int) ≤ min (e.height : Int)
        ((if l.length < 2 then [1, 1] else l).getD 0 0 : Int) :=
      le_min hhI hy0
    rw [hcx, hcy]
    refine ⟨by omega, by omega, by omega, by omega⟩
  · have hcy : (e.csi_d l).cursor_y =
        min (e.height : Int) (l.headD 0 : Int) - 1 := by
      simp only [Emu.csi_d]
      split <;> rfl
    have hy0 : (1 : Int) ≤ (l.headD 0 : Int) := by exact_mod_cast hhead
    have hm1 := min_le_left (e.height : Int) (l.headD 0 : Int)
    have hm2 : (1 : Int) ≤ min (e.height : Int) (l.headD 0 : Int) :=
      le_min hhI hy0
    rw [hcy]
    exact ⟨by omega, by omega⟩

/-- C1 witness: the amended bounds at a concrete terminal and
parameter list. -/
theorem C1_cursor_bounds_csi_witness :
    (0 ≤ ((Emu.init 2 3 "k" none).csi_G [1]).cursor_x ∧
     ((Emu.init 2 3 "k" none).csi_G [1]).cursor_x <
       ((Emu.init 2 3 "k" none).width : Int)) ∧
    (0 ≤ ((Emu.init 2 3 "k" none).csi_H [1]).cursor_x ∧
     ((Emu.init 2 3 "k" none).csi_H [1]).cursor_x <
       ((Emu.init 2 3 "k" none).width : Int) ∧
     0 ≤ ((Emu.init 2 3 "k" none).csi_H [1]).cursor_y ∧
     ((Emu.init 2 3 "k" none).csi_H [1]).cursor_y <
       ((Emu.init 2 3 "k" none).height : Int)) ∧
    (0 ≤ ((Emu.init 2 3 "k" none).csi_d [1]).cursor_y ∧
     ((Emu.init 2 3 "k" none).csi_d [1]).cursor_y <
       ((Emu.init 2 3 "k" none).height : Int)) :=
  C1_cursor_bounds_csi (Emu.init 2 3 "k" none) [1] (by decide) (by decide)
    (by decide) (by decide)

/-- Any escape-buffer value `Terminal.escape` hands back to be kept
pending has at most 32 bytes (longer buffers are discarded, matched
buffers are emptied). -/
theorem escape_buf_len (e : Emu) (b : UStr) (e2 : Emu) (b2 : UStr)
    (h : e.escape b = .ok (e2, b2)) : b2.length ≤ 32 := by
  unfold Emu.escape at h
  split at h
  · simp only [Except.ok.injEq, Prod.mk.injEq] at h
    rw [← h.2]
    exact Nat.zero_le 32
  · rename_i hlen
    push_neg at hlen
    split at h
    · split at h
      · exact absurd h (by simp)
      · simp only [Except.ok.injEq, Prod.mk.injEq] at h
        rw [← h.2]
        exact Nat.zero_le 32
    · split at h
      · split at h
        · exact absurd h (by simp)
        · simp only [Except.ok.injEq, Prod.mk.injEq] at h
          rw [← h.2]
          exact Nat.zero_le 32
      · split at h <;>
          (simp only [Except.ok.injEq, Prod.mk.injEq] at h; rw [← h.2])
        · exact Nat.zero_le 32
        · exact hlen

/-- Every buffer value produced by one step of the `write` loop has at
most 32 bytes. -/
theorem handleByte_buf_len (t : Term) (c : Nat) (t2 : Term)
    (h : t.handleByte c = .ok t2) : t2.buf.length ≤ 32 := by
  unfold Term.handleByte at h
  split at h
  · rcases heq : t.emu.escape (t.buf ++ [c]) with err | eb
    · rw [heq] at h; exact absurd h (by simp)
    · rw [heq] at h
      simp only [Except.ok.injEq] at h
      have := escape_buf_len _ _ eb.1 eb.2 heq
      rw [← h]
      exact this
  · rename_i hcond
    push_neg at hcond
    split at h
    · simp only [Except.ok.injEq] at h
      rw [← h]
      simp only [List.length_append, List.length_cons, List.length_nil]
      omega
    · rcases heq : t.emu.echo c with err | e2
      · rw [heq] at h; exact absurd h (by simp)
      · rw [heq] at h
        simp only [Except.ok.injEq] at h
        rw [← h]
        simp only []
        omega

/-- Both phases of the fueled `write` loop preserve the 32-byte bound
on the pending escape buffer. -/
theorem writeSteps_buf_len (jl : UStr → Except UStr Headers)
    (lx : Option (UStr → Option UStr))
    (st : String → Option (Nat × UStr)) :
    ∀ (fuel : Nat) (t : Term) (s : UStr) (t2 : Term),
    t.buf.length ≤ 32 →
    (writeChunk jl lx st fuel t s = .ok t2 ∨
     writeBytes jl lx st fuel t s = .ok t2) → t2.buf.length ≤ 32 := by
  intro fuel
  induction fuel with
  | zero =>
    intro t s t2 hb h
    rcases h with h | h <;>
      (simp only [writeChunk, writeBytes, Except.ok.injEq] at h;
       rw [← h]; exact hb)
  | succ n ih =>
    intro t s t2 hb h
    rcases h with h | h
    · rw [writeChunk] at h
      split at h
      · rcases heq : Emu.gterm_append jl lx st t.emu s with err | es
        · rw [heq] at h; exact absurd h (by simp)
        · rw [heq] at h
          dsimp only at h
          split at h
          · simp only [Except.ok.injEq] at h
            rw [← h]
            exact hb
          · split at h
            · exact absurd h (by simp)
            · exact ih _ _ _ (by exact hb) (Or.inr h)
      · split at h
        · simp only [Except.ok.injEq] at h
          rw [← h]
          exact hb
        · exact ih _ _ _ (by exact hb) (Or.inr h)
    · rcases s with _ | ⟨c, rest⟩
      · rw [writeBytes] at h
        simp only [Except.ok.injEq] at h
        rw [← h]
        exact hb
      · rw [writeBytes] at h
        rcases heq : t.handleByte c with err | t3
        · rw [heq] at h; exact absurd h (by simp)
        · rw [heq] at h
          dsimp only at h
          have h3 := handleByte_buf_len t c t3 heq
          split at h
          · exact ih _ _ _ (by exact h3) (Or.inl h)
          · exact ih _ _ _ (by exact h3) (Or.inr h)

/-- C8: during escape processing, a pending buffer longer than 32 bytes
is discarded outright (no matching is even attempted), and consequently
`Terminal.write` never lets the pending buffer exceed 32 bytes: ESC
followed by arbitrary non-sequence bytes cannot accumulate an unbounded
buffer, and echoing resumes on the discarded buffer's successors. -/
theorem C8_escape_buffer_discarded :
    (∀ (e : Emu) (b : UStr), 32 < b.length → e.escape b = .ok (e, [])) ∧
    (∀ (jl : UStr → Except UStr Headers)
       (lx : Option (UStr → Option UStr))
       (st : String → Option (Nat × UStr)) (t : Term) (s : UStr)
       (t2 : Term), t.buf.length ≤ 32 →
       Term.write jl lx st t s = .ok t2 → t2.buf.length ≤ 32) := by
  constructor
  · intro e b hlen
    unfold Emu.escape
    rw [if_pos (by omega)]
  · intro jl lx st t s t2 hb h
    exact writeSteps_buf_len jl lx st _ t s t2 hb (Or.inl h)

/-- `cgi.escape` leaves no raw angle bracket in any single escaped
character. -/
theorem cgi_escape_char_no_angle (c : Nat) :
    60 ∉ cgi_escape_char c ∧ 62 ∉ cgi_escape_char c := by
  unfold cgi_escape_char
  split_ifs with h1 h2 h3 <;> constructor <;> simp <;> omega

/-- `cgi.escape` output contains no raw `<` or `>`. -/
theorem cgi_escape_no_angle (s : UStr) :
    60 ∉ cgi_escape s ∧ 62 ∉ cgi_escape s := by
  unfold cgi_escape
  constructor <;>
  · intro hmem
    rw [List.mem_join] at hmem
    obtain ⟨l, hl, hcl⟩ := hmem
    rw [List.mem_map] at hl
    obtain ⟨c, -, rfl⟩ := hl
    first
      | exact (cgi_escape_char_no_angle c).1 hcl
      | exact (cgi_escape_char_no_angle c).2 hcl

/-- `blank_last_entry` only rewrites the last line, and the rewritten
line carries an empty markup. -/
theorem blank_last_entry_markup (b b' : ScreenBuf)
    (h : b.blank_last_entry = .ok b') :
    ∀ l ∈ b'.scroll_lines, l ∈ b.scroll_lines ∨ l.markup = some [] := by
  unfold ScreenBuf.blank_last_entry at h
  rcases hlast : b.scroll_lines.getLast? with _ | lastL
  · rw [hlast] at h
    simp only [Except.ok.injEq] at h
    rw [← h]
    exact fun l hl => Or.inl hl
  · rw [hlast] at h
    dsimp only at h
    split at h
    · exact absurd h (by simp)
    · split at h <;>
      · simp only [Except.ok.injEq] at h
        intro l hl
        rw [← h] at hl
        simp only [List.mem_append, List.mem_singleton] at hl
        rcases hl with hl | hl
        · exact Or.inl ((List.dropLast_sublist b.scroll_lines).subset hl)
        · rw [hl]
          exact Or.inr rfl

/-- The overwrite branch rewrites only the last line, giving it the
supplied markup. -/
theorem scrollOverwrite_markup (b1 : ScreenBuf) (cd pt : String)
    (o : ScrollOpts) (line : UStr) (mk : Option UStr) (b' : ScreenBuf)
    (h : scrollOverwrite b1 cd pt o line mk = .ok b') :
    ∀ l ∈ b'.scroll_lines, l ∈ b1.scroll_lines ∨ l.markup = mk := by
  unfold scrollOverwrite at h
  rcases hlast : b1.scroll_lines.getLast? with _ | lastL
  · rw [hlast] at h
    exact absurd h (by simp)
  · rw [hlast] at h
    dsimp only at h
    split at h <;>
    · simp only [Except.ok.injEq] at h
      intro l hl
      rw [← h] at hl
      simp only [List.mem_append, List.mem_singleton] at hl
      rcases hl with hl | hl
      · exact Or.inl ((List.dropLast_sublist b1.scroll_lines).subset hl)
      · rw [hl]
        exact Or.inr rfl

/-- The append branch only blanks a one-shot predecessor, appends the
new line (with the supplied markup) and evicts from the front. -/
theorem scrollAppend_markup (b1 : ScreenBuf) (cd : String) (off : Nat)
    (pt : String) (opts1 : ScrollOpts) (line : UStr) (mk : Option UStr)
    (b' : ScreenBuf)
    (h : scrollAppend b1 cd off pt opts1 line mk = .ok b') :
    ∀ l ∈ b'.scroll_lines,
      l ∈ b1.scroll_lines ∨ l.markup = mk ∨ l.markup = some [] := by
  unfold scrollAppend at h
  dsimp only at h
  split at h
  · simp at h
  · rename_i b2 heqB
    have hb2mem : ∀ l ∈ b2.scroll_lines,
        l ∈ b1.scroll_lines ∨ l.markup = some [] := by
      split at heqB
      · exact blank_last_entry_markup _ _ heqB
      · simp only [Except.ok.injEq] at heqB
        rw [← heqB]
        exact fun l hl => Or.inl hl
    have hstep : ∀ l, l ∈ b2.scroll_lines ++
        [({ index := b2.entry_index, offset := off, dir := cd, ptype := pt,
            opts := { opts1 with
              pagelet_id := some ⟨b2.buf_note, b2.current_scroll_count + 1⟩ },
            line := line, markup := mk } : ScrollLine)] →
        l ∈ b1.scroll_lines ∨ l.markup = mk ∨ l.markup = some [] := by
      intro l hl
      rcases List.mem_append.1 hl with hl | hl
      · rcases hb2mem l hl with hm | hm
        · exact Or.inl hm
        · exact Or.inr (Or.inr hm)
      · rw [List.mem_singleton.1 hl]
        exact Or.inr (Or.inl rfl)
    split at h
    · split at h
      · simp at h
      · rename_i old rest heqL
        split at h
        · simp at h
        · rename_i lines2 acc2 heqE
          simp only [Except.ok.injEq] at h
          rw [← h]
          intro l hl
          have hsub : lines2.Sublist (old :: rest) :=
            ((evictRest_sublist old.index rest _ lines2 acc2
              heqE).trans (List.sublist_cons_self old rest))
          rw [← heqL] at hsub
          exact hstep l (hsub.subset hl)
    · simp only [Except.ok.injEq] at h
      rw [← h]
      exact hstep

/-- With `offset = 0`, every line present after `scroll_buf_up` either
was already stored, carries the supplied markup, or carries the blank
markup of a blanked one-shot entry. -/
theorem scroll_buf_up_markup (b : ScreenBuf) (line : UStr) (meta : RowMeta)
    (ac pt : String) (opts0 : ScrollOpts) (mk : Option UStr)
    (b' : ScreenBuf)
    (h : b.scroll_buf_up line meta 0 ac pt opts0 mk = .ok b') :
    ∀ l ∈ b'.scroll_lines,
      l ∈ b.scroll_lines ∨ l.markup = mk ∨ l.markup = some [] := by
  have hpl : (scrollPrologue b 0 pt opts0).scroll_lines = b.scroll_lines :=
    (scrollPrologue_fields b 0 pt opts0).1
  simp only [ScreenBuf.scroll_buf_up] at h
  split at h
  · exact absurd h (by simp)
  · intro l hl
    rcases scrollOverwrite_markup _ _ _ _ _ _ _ h l hl with hm | hm
    · rw [hpl] at hm
      exact Or.inl hm
    · exact Or.inr (Or.inl hm)
  · intro l hl
    rcases scrollAppend_markup _ _ _ _ _ _ _ _ h l hl with hm | hm
    · rw [hpl] at hm
      exact Or.inl hm
    · exact Or.inr hm

/-- C4: for an unvalidated pagelet (cookie mismatch), the dispatched
content is sanitized: escaped content never holds a raw angle bracket;
the only event the dispatch can emit is a `graphterm_output` whose
headers are either retagged `text/plain` (lxml strip succeeded) or
whose content is exactly `cgi.escape` of the payload; and any scroll
entry it adds or rewrites carries no markup (the plain-text path stores
the escaped first line as text with a `none`/blank markup field). -/
theorem C4_unvalidated_sanitized (lx : Option (UStr → Option UStr))
    (e : Emu) (h : Headers) (c : UStr) (e2 : Emu)
    (hok : gterm_dispatch_unvalidated lx e h c = .ok e2) :
    (∀ s, 60 ∉ cgi_escape s ∧ 62 ∉ cgi_escape s) ∧
    (e2.events = e.events ∨
     ∃ h2 c2, e2.events = e.events ++ [Event.graphterm_output false h2 c2] ∧
       (h2.content_type = "text/plain" ∨
        (c2 = cgi_escape c ∧ 60 ∉ c2 ∧ 62 ∉ c2))) ∧
    (∀ l ∈ e2.screen_buf.scroll_lines,
       l ∈ e.screen_buf.scroll_lines ∨ l.markup = none ∨
       l.markup = some []) ∧
    (∀ l ∈ e2.note_screen_buf.scroll_lines,
       l ∈ e.note_screen_buf.scroll_lines ∨ l.markup = none ∨
       l.markup = some []) := by
  refine ⟨cgi_escape_no_angle, ?_⟩
  unfold gterm_dispatch_unvalidated at hok
  dsimp only at hok
  have hmain : ∀ (hh : Headers) (cc : UStr),
      (hh.content_type = "text/plain" ∨ (cc = cgi_escape c ∧ 60 ∉ cc ∧ 62 ∉ cc)) →
      ((if hh.x_gterm_response ≠ "" then
          Except.ok (e.graphterm_output false
            { hh with
              x_gterm_response := "pagelet",
              x_gterm_parameters := RespParams.empty,
              content_length := some cc.length } cc)
        else
          match e.cur_buf.scroll_buf_up
              ((normNl cc).takeWhile (fun x => decide (x ≠ 10)) ++
                [46, 46, 46]) none 0 "" "" ScrollOpts.empty none with
          | .error err => .error err
          | .ok b2 => .ok (e.set_cur_buf b2)) = .ok e2) →
      (e2.events = e.events ∨
       ∃ h2 c2, e2.events = e.events ++
           [Event.graphterm_output false h2 c2] ∧
         (h2.content_type = "text/plain" ∨
          (c2 = cgi_escape c ∧ 60 ∉ c2 ∧ 62 ∉ c2))) ∧
      (∀ l ∈ e2.screen_buf.scroll_lines,
         l ∈ e.screen_buf.scroll_lines ∨ l.markup = none ∨
         l.markup = some []) ∧
      (∀ l ∈ e2.note_screen_buf.scroll_lines,
         l ∈ e.note_screen_buf.scroll_lines ∨ l.markup = none ∨
         l.markup = some []) := by
    intro hh cc hsan hok2
    split at hok2
    · simp only [Except.ok.injEq] at hok2
      rw [← hok2]
      unfold Emu.graphterm_output
      refine ⟨Or.inr ⟨_, cc, rfl, ?_⟩, fun l hl => Or.inl hl,
        fun l hl => Or.inl hl⟩
      rcases hsan with hs | hs
      · exact Or.inl hs
      · exact Or.inr hs
    · rcases hsb : e.cur_buf.scroll_buf_up
          ((normNl cc).takeWhile (fun x => decide (x ≠ 10)) ++
            [46, 46, 46]) none 0 "" "" ScrollOpts.empty none with err | b2
      · rw [hsb] at hok2
        exact absurd hok2 (by simp)
      · rw [hsb] at hok2
        simp only [Except.ok.injEq] at hok2
        rw [← hok2]
        have hbuf := scroll_buf_up_markup _ _ _ _ _ _ _ _ hsb
        unfold Emu.set_cur_buf
        by_cases hnc : e.note_cells.isSome
        · rw [if_pos hnc]
          refine ⟨Or.inl rfl, fun l hl => Or.inl hl, fun l hl => ?_⟩
          have := hbuf l hl
          unfold Emu.cur_buf at this
          rw [if_pos hnc] at this
          exact this
        · rw [if_neg hnc]
          refine ⟨Or.inl rfl, fun l hl => ?_, fun l hl => Or.inl hl⟩
          have := hbuf l hl
          unfold Emu.cur_buf at this
          rw [if_neg hnc] at this
          exact this
  rcases lx with _ | f
  · dsimp only at hok
    exact hmain h (cgi_escape c)
      (Or.inr ⟨rfl, (cgi_escape_no_angle c).1, (cgi_escape_no_angle c).2⟩) hok
  · dsimp only at hok
    rcases hf : f c with _ | cstr
    · rw [hf] at hok
      dsimp only at hok
      exact hmain h (cgi_escape c)
        (Or.inr ⟨rfl, (cgi_escape_no_angle c).1, (cgi_escape_no_angle c).2⟩) hok
    · rw [hf] at hok
      dsimp only at hok
      exact hmain { h with content_type := "text/plain" } cstr
        (Or.inl rfl) hok

/-- C4 witness: a concrete unvalidated dispatch (no lxml, raw HTML
payload) satisfying the sanitization conclusions. -/
theorem C4_unvalidated_sanitized_witness :
    ∃ e2, gterm_dispatch_unvalidated none (Emu.init 2 3 "k" none)
        Headers.default (stringToU "<b>hi</b>") = .ok e2 ∧
      ((∀ s, 60 ∉ cgi_escape s ∧ 62 ∉ cgi_escape s) ∧
       (e2.events = (Emu.init 2 3 "k" none).events ∨
        ∃ h2 c2, e2.events = (Emu.init 2 3 "k" none).events ++
            [Event.graphterm_output false h2 c2] ∧
          (h2.content_type = "text/plain" ∨
           (c2 = cgi_escape (stringToU "<b>hi</b>") ∧ 60 ∉ c2 ∧ 62 ∉ c2))) ∧
       (∀ l ∈ e2.screen_buf.scroll_lines,
          l ∈ (Emu.init 2 3 "k" none).screen_buf.scroll_lines ∨
          l.markup = none ∨ l.markup = some []) ∧
       (∀ l ∈ e2.note_screen_buf.scroll_lines,
          l ∈ (Emu.init 2 3 "k" none).note_screen_buf.scroll_lines ∨
          l.markup = none ∨ l.markup = some [])) := by
  obtain ⟨e2, he2⟩ : ∃ e2, gterm_dispatch_unvalidated none
      (Emu.init 2 3 "k" none) Headers.default (stringToU "<b>hi</b>") =
      .ok e2 := ⟨_, rfl⟩
  exact ⟨e2, he2, C4_unvalidated_sanitized none (Emu.init 2 3 "k" none)
    Headers.default (stringToU "<b>hi</b>") e2 he2⟩

/-- `pyIdx` on a non-negative in-range index is the index itself. -/
theorem pyIdx_natCast (len n : Nat) (hn : n ≤ len) :
    pyIdx len (n : Int) = n := by
  unfold pyIdx
  rw [if_neg (by omega)]
  simp only [Int.toNat_natCast]
  omega

/-- `pySlice` with in-range natural bounds is take-of-drop. -/
theorem pySlice_natCast (l : List Nat) (a b : Nat) (ha : a ≤ l.length)
    (hb : b ≤ l.length) :
    pySlice l (a : Int) (b : Int) = (l.drop a).take (b - a) := by
  unfold pySlice
  rw [pyIdx_natCast _ _ ha, pyIdx_natCast _ _ hb]

/-- `pySetSlice` with in-range natural bounds is splice. -/
theorem pySetSlice_natCast (l : List Nat) (a b : Nat) (repl : List Nat)
    (ha : a ≤ l.length) (hb : b ≤ l.length) (hab : a ≤ b) :
    pySetSlice l (a : Int) (b : Int) repl =
      l.take a ++ repl ++ l.drop b := by
  unfold pySetSlice
  rw [pyIdx_natCast _ _ ha, pyIdx_natCast _ _ hb]
  dsimp only
  rw [Nat.max_eq_right hab]

/-- `pySliceMeta` with in-range natural bounds is take-of-drop. -/
theorem pySliceMeta_natCast (l : List (Option (String × Nat))) (a b : Nat)
    (ha : a ≤ l.length) (hb : b ≤ l.length) :
    pySliceMeta l (a : Int) (b : Int) = (l.drop a).take (b - a) := by
  unfold pySliceMeta
  rw [pyIdx_natCast _ _ ha, pyIdx_natCast _ _ hb]

/-- `pySetSliceMeta` with in-range natural bounds is splice. -/
theorem pySetSliceMeta_natCast (l : List (Option (String × Nat)))
    (a b : Nat) (repl : List (Option (String × Nat)))
    (ha : a ≤ l.length) (hb : b ≤ l.length) (hab : a ≤ b) :
    pySetSliceMeta l (a : Int) (b : Int) repl =
      l.take a ++ repl ++ l.drop b := by
  unfold pySetSliceMeta
  rw [pyIdx_natCast _ _ ha, pyIdx_natCast _ _ hb]
  dsimp only
  rw [Nat.max_eq_right hab]

/-- A row slice taken entirely inside the left part of an append. -/
theorem rowSlice_append_left (u v : List Nat) (w k : Nat)
    (h : w * k + w ≤ u.length) :
    rowSlice (u ++ v) w k = rowSlice u w k := by
  unfold rowSlice
  rw [List.drop_append_of_le_length (by omega),
    List.take_append_of_le_length (by simp; omega)]

/-- A row slice taken entirely inside a prefix. -/
theorem rowSlice_take (u : List Nat) (n w k : Nat) (h : w * k + w ≤ n) :
    rowSlice (u.take n) w k = rowSlice u w k := by
  unfold rowSlice
  rw [List.drop_take, List.take_take, Nat.min_eq_left (by omega)]

/-- A row slice of a dropped list is a shifted row slice. -/
theorem rowSlice_drop (u : List Nat) (s w k : Nat) :
    rowSlice (u.drop (w * s)) w k = rowSlice u w (s + k) := by
  unfold rowSlice
  rw [List.drop_drop]
  congr 2
  ring

/-- `getD` inside the left part of an append. -/
theorem getD_append_left_meta (u v : List (Option (String × Nat)))
    (k : Nat) (hk : k < u.length) :
    (u ++ v).getD k none = u.getD k none := by
  unfold List.getD
  rw [List.get?_append hk]

/-- `getD` inside a prefix. -/
theorem getD_take_meta (u : List (Option (String × Nat))) (n k : Nat)
    (hk : k < n) :
    (u.take n).getD k none = u.getD k none := by
  unfold List.getD
  rw [List.get?_take hk]

/-- `getD` of a dropped list is a shifted `getD`. -/
theorem getD_drop_meta (u : List (Option (String × Nat))) (n k : Nat) :
    (u.drop n).getD k none = u.getD (n + k) none := by
  unfold List.getD
  rw [List.get?_drop]

/-- The prompt offset of row `i` of a screen, as tested by
`scroll_screen` (lineterm.py:1063). -/
def promptOffAt (sc : Screen) (w : Nat) (pd : Pdelim) (i : Nat) : Nat :=
  prompt_offset (dump (rowSlice sc.data w i) false) pd (sc.meta.getD i none)

/-- The prompt search result never exceeds its starting row. -/
theorem findPromptRow_le (sc : Screen) (w : Nat) (pd : Pdelim) :
    ∀ j, findPromptRow sc w pd j ≤ j := by
  intro j
  induction j with
  | zero => simp [findPromptRow]
  | succ n ih =>
    rw [findPromptRow]
    split
    · exact le_refl _
    · exact ih.trans (Nat.le_succ n)

/-- Maximality of the descending prompt search: every row strictly
above the hit (and within the searched range) has offset 0. -/
theorem findPromptRow_max (sc : Screen) (w : Nat) (pd : Pdelim) :
    ∀ j i, findPromptRow sc w pd j < i → i ≤ j →
      promptOffAt sc w pd i = 0 := by
  intro j
  induction j with
  | zero =>
    intro i h1 h2
    simp [findPromptRow] at h1
    omega
  | succ n ih =>
    intro i h1 h2
    rw [findPromptRow] at h1
    split at h1
    · omega
    · rename_i hoff
      rcases Nat.lt_or_ge i (n + 1) with hi | hi
      · exact ih i h1 (by omega)
      · have : i = n + 1 := by omega
        rw [this]
        unfold promptOffAt
        omega

/-- If every searched row above 0 has offset 0, the search yields 0. -/
theorem findPromptRow_zero (sc : Screen) (w : Nat) (pd : Pdelim) :
    ∀ j, (∀ i, 1 ≤ i → i ≤ j → promptOffAt sc w pd i = 0) →
      findPromptRow sc w pd j = 0 := by
  intro j
  induction j with
  | zero => simp [findPromptRow]
  | succ n ih =>
    intro h
    rw [findPromptRow]
    rw [if_neg (by
      have h2 := h (n + 1) (by omega) (le_refl _)
      unfold promptOffAt at h2
      exact fun hne => hne h2)]
    exact ih (fun i h1 h2 => h i h1 (by omega))

set_option maxHeartbeats 1000000 in
/-- When the prompt search finds nothing above row 0 (or there are no
active rows), `scroll_screen` is the identity. -/
theorem scroll_screen_zero (e : Emu) (hnote : e.note_cells = none)
    (h : e.active_rows = 0 ∨
      findPromptRow e.main_screen e.width e.pdelim
        (e.active_rows - 1) = 0) :
    e.scroll_screen none = .ok e := by
  unfold Emu.scroll_screen
  dsimp only
  have hsel : (if e.note_cells.isSome then none else e.pdelim) =
      e.pdelim := by
    simp [hnote]
  rw [hsel]
  have hs : (if e.active_rows = 0 then 0
      else findPromptRow e.main_screen e.width e.pdelim
        (e.active_rows - 1)) = 0 := by
    rcases h with h | h
    · rw [if_pos h]
    · split
      · rfl
      · exact h
  rw [hs]
  rfl

/-- `pySetSlice` starting at 0 replaces a prefix. -/
theorem pySetSlice_zero (l : List Nat) (b : Nat) (repl : List Nat)
    (hb : b ≤ l.length) :
    pySetSlice l 0 (b : Int) repl = repl ++ l.drop b := by
  unfold pySetSlice
  have h0 : pyIdx l.length 0 = 0 := by
    unfold pyIdx
    simp
  rw [show (0 : Int) = ((0 : Nat) : Int) from rfl, pyIdx_natCast _ _ (by omega),
    pyIdx_natCast _ _ hb]
  dsimp only
  rw [Nat.max_eq_right (Nat.zero_le b)]
  simp

/-- `pySetSliceMeta` starting at 0 replaces a prefix. -/
theorem pySetSliceMeta_zero (l : List (Option (String × Nat))) (b : Nat)
    (repl : List (Option (String × Nat))) (hb : b ≤ l.length) :
    pySetSliceMeta l 0 (b : Int) repl = repl ++ l.drop b := by
  unfold pySetSliceMeta
  rw [show (0 : Int) = ((0 : Nat) : Int) from rfl, pyIdx_natCast _ _ (by omega),
    pyIdx_natCast _ _ hb]
  dsimp only
  rw [Nat.max_eq_right (Nat.zero_le b)]
  simp

/-- Phase 1 in normal mode: the data becomes the shifted active block
followed by the old tail; nothing else changes (the `poke` active-row
bump is absorbed by `max`). -/
theorem shiftPoke_eq (e : Emu) (s : Nat) (halt : e.alt_mode = false)
    (hs : s < e.active_rows)
    (hd : e.main_screen.data.length = e.width * e.height)
    (har : e.active_rows ≤ e.height) :
    shiftPoke e s = { e with
      main_screen := { e.main_screen with
        data := (e.main_screen.data.drop (e.width * s)).take
            (e.width * e.active_rows - e.width * s) ++
          e.main_screen.data.drop
            (e.width * e.active_rows - e.width * s) } } := by
  have hWS : e.width * s ≤ e.width * e.active_rows :=
    Nat.mul_le_mul_left _ (le_of_lt hs)
  have hWA : e.width * e.active_rows ≤ e.width * e.height :=
    Nat.mul_le_mul_left _ har
  unfold shiftPoke Emu.poke Emu.peek Emu.set_cur_screen Emu.cur_screen
  rw [if_pos hs]
  simp only [halt, Bool.false_eq_true, if_false, not_false_eq_true, if_true,
    Bool.not_eq_true]
  have hb1 : (e.width : Int) * (s : Int) + 0 = ((e.width * s : Nat) : Int) := by
    push_cast
    ring
  have hb2 : (e.width : Int) * ((e.active_rows : Int) - 1) + (e.width : Int) =
      ((e.width * e.active_rows : Nat) : Int) := by
    push_cast
    ring
  rw [hb1, hb2, pySlice_natCast _ _ _ (by omega) (by omega)]
  have hpos : (e.width : Int) * 0 + 0 = (0 : Int) := by ring
  rw [hpos]
  have hlen : ((e.main_screen.data.drop (e.width * s)).take
      (e.width * e.active_rows - e.width * s)).length =
      e.width * e.active_rows - e.width * s := by
    rw [List.length_take, List.length_drop, hd]
    omega
  rw [hlen, zero_add, pySetSlice_zero _ _ _ (by omega)]
  rw [show ((0 : Int) + 1).toNat = 1 from rfl,
    Nat.max_eq_right (show 1 ≤ e.active_rows by omega)]

/-- Phase 2 is the plain active-row decrement. -/
theorem shiftActive_eq (e : Emu) (s : Nat) :
    shiftActive e s = { e with active_rows := e.active_rows - s } := rfl

/-- Phase 3 in normal mode shifts the metadata prefix. -/
theorem shiftMeta_eq (e : Emu) (s : Nat) (halt : e.alt_mode = false)
    (hne : e.active_rows ≠ 0)
    (hbound : s + e.active_rows ≤ e.main_screen.meta.length) :
    shiftMeta e s = { e with
      main_screen := { e.main_screen with
        meta := (e.main_screen.meta.drop s).take e.active_rows ++
          e.main_screen.meta.drop e.active_rows } } := by
  unfold shiftMeta Emu.set_cur_screen Emu.cur_screen
  rw [if_pos hne]
  simp only [halt, Bool.false_eq_true, if_false, not_false_eq_true, if_true,
    Bool.not_eq_true]
  have hb1 : (s : Int) + (e.active_rows : Int) =
      ((s + e.active_rows : Nat) : Int) := by push_cast; ring
  rw [hb1, pySliceMeta_natCast _ _ _ (by omega) hbound]
  rw [show s + e.active_rows - s = e.active_rows by omega]
  rw [pySetSliceMeta_zero _ _ _ (by omega)]

/-- Phase 4 in normal mode blanks data and metadata below the active
region. -/
theorem shiftZero_eq (e : Emu) (halt : e.alt_mode = false)
    (hd : e.main_screen.data.length = e.width * e.height)
    (hm : e.main_screen.meta.length = e.height)
    (har : e.active_rows ≤ e.height) :
    shiftZero e = { e with
      main_screen := { e.main_screen with
        data := e.main_screen.data.take (e.width * e.active_rows) ++
          List.replicate (e.width * e.height - e.width * e.active_rows) 0 ++
          e.main_screen.data.drop (e.width * e.height),
        meta := e.main_screen.meta.take e.active_rows ++
          List.replicate (e.height - e.active_rows) none ++
          e.main_screen.meta.drop e.height } } := by
  have hWA : e.width * e.active_rows ≤ e.width * e.height :=
    Nat.mul_le_mul_left _ har
  unfold shiftZero Emu.zero_lines Emu.zero Emu.set_cur_screen Emu.cur_screen
  simp only [halt, Bool.false_eq_true, if_false, not_false_eq_true, if_true,
    Bool.not_eq_true]
  have hb1 : (e.width : Int) * (e.active_rows : Int) + 0 =
      ((e.width * e.active_rows : Nat) : Int) := by push_cast; ring
  have hb2 : (e.width : Int) * ((e.height : Int) - 1) + ((e.width : Int) - 1)
      + 1 = ((e.width * e.height : Nat) : Int) := by push_cast; ring
  have hcount : ((e.width : Int) * (((e.height : Int) - 1) -
      (e.active_rows : Int)) + ((e.width : Int) - 1) - 0 + 1).toNat =
      e.width * e.height - e.width * e.active_rows := by
    have h1 : (e.width : Int) * (((e.height : Int) - 1) -
        (e.active_rows : Int)) + ((e.width : Int) - 1) - 0 + 1 =
        ((e.width * e.height : Nat) : Int) -
        ((e.width * e.active_rows : Nat) : Int) := by push_cast; ring
    rw [h1, ← Nat.cast_sub hWA]
    exact Int.toNat_natCast _
  have hb3 : ((e.height : Int) - 1) + 1 = ((e.height : Nat) : Int) := by ring
  have hcount2 : ((e.height : Int) - (e.active_rows : Int)).toNat =
      e.height - e.active_rows := by
    rw [← Nat.cast_sub har]
    exact Int.toNat_natCast _
  rw [hb1, hb2, hcount, hb3, hcount2,
    pySetSlice_natCast _ _ _ _ (by omega) (by omega) (by omega),
    pySetSliceMeta_natCast _ _ _ _ (by omega) (by omega) (by omega)]

/-- Phase 5 with remaining active rows only pulls the cursor up. -/
theorem shiftCursor_eq (e : Emu) (s : Nat) (hne : e.active_rows ≠ 0) :
    shiftCursor e s =
      { e with cursor_y := max 0 (e.cursor_y - (s : Int)) } := by
  unfold shiftCursor
  dsimp only
  rw [if_neg (by simp [hne])]

set_option maxHeartbeats 2000000 in
/-- The shift of `scroll_screen` in normal mode: the retained active
rows are exactly the old rows from the found prompt row onward (data
and metadata), so their prompt offsets transport. -/
theorem scroll_screen_shift (e e' : Emu) (halt : e.alt_mode = false)
    (hnote : e.note_cells = none)
    (hd : e.main_screen.data.length = e.width * e.height)
    (hm : e.main_screen.meta.length = e.height)
    (har : e.active_rows ≤ e.height) (har0 : e.active_rows ≠ 0)
    (hok : e.scroll_screen none = .ok e') :
    e'.active_rows = e.active_rows -
      findPromptRow e.main_screen e.width e.pdelim (e.active_rows - 1) ∧
    (∀ k, k < e'.active_rows →
      promptOffAt e'.main_screen e.width e.pdelim k =
      promptOffAt e.main_screen e.width e.pdelim
        (findPromptRow e.main_screen e.width e.pdelim (e.active_rows - 1)
          + k)) ∧
    e'.width = e.width ∧ e'.pdelim = e.pdelim ∧
    e'.note_cells = e.note_cells ∧ e'.alt_mode = e.alt_mode := by
  unfold Emu.scroll_screen at hok
  simp only [hnote, Option.isSome_none, Bool.false_eq_true, if_false,
    Emu.cur_buf] at hok
  rw [if_neg har0] at hok
  by_cases hs0 : findPromptRow e.main_screen e.width e.pdelim
      (e.active_rows - 1) = 0
  · rw [if_pos hs0] at hok
    simp only [Except.ok.injEq] at hok
    subst hok
    refine ⟨by omega, ?_, rfl, rfl, rfl, rfl⟩
    intro k hk
    rw [hs0, Nat.zero_add]
  · rw [if_neg hs0] at hok
    have hlt : findPromptRow e.main_screen e.width e.pdelim
        (e.active_rows - 1) < e.active_rows := by
      have := findPromptRow_le e.main_screen e.width e.pdelim
        (e.active_rows - 1)
      omega
    rcases hret : retireLoop e.main_screen e.width e.pdelim
        (findPromptRow e.main_screen e.width e.pdelim (e.active_rows - 1))
        (findPromptRow e.main_screen e.width e.pdelim (e.active_rows - 1))
        0 e.screen_buf with err | buf1
    · rw [hret] at hok
      exact absurd hok (by simp [Bind.bind, Except.bind])
    · rw [hret] at hok
      simp only [Bind.bind, Except.bind, Except.ok.injEq] at hok
      subst hok
      -- abbreviate the found prompt row
      set S := findPromptRow e.main_screen e.width e.pdelim
        (e.active_rows - 1) with hS
      -- arithmetic atoms
      have hWS : e.width * S ≤ e.width * e.active_rows :=
        Nat.mul_le_mul_left _ (le_of_lt hlt)
      have hWA : e.width * e.active_rows ≤ e.width * e.height :=
        Nat.mul_le_mul_left _ har
      have hdist : e.width * (e.active_rows - S) + e.width * S =
          e.width * e.active_rows := by
        rw [← Nat.mul_add, Nat.sub_add_cancel (le_of_lt hlt)]
      -- phase rewrites
      have h0 : e.set_cur_buf buf1 = { e with screen_buf := buf1 } := by
        unfold Emu.set_cur_buf
        simp [hnote]
      rw [h0]
      rw [shiftPoke_eq _ _ (by exact halt) (by exact hlt) (by exact hd)
        (by exact har)]
      rw [shiftActive_eq]
      dsimp only
      have hdataLen : ((e.main_screen.data.drop (e.width * S)).take
          (e.width * e.active_rows - e.width * S) ++
          e.main_screen.data.drop
            (e.width * e.active_rows - e.width * S)).length =
          e.width * e.height := by
        rw [List.length_append, List.length_take, List.length_drop,
          List.length_drop, hd]
        omega
      rw [shiftMeta_eq _ _ (by exact halt) (by dsimp only; omega)
        (by dsimp only; rw [hm]; omega)]
      dsimp only
      have hmetaLen : ((e.main_screen.meta.drop S).take
          (e.active_rows - S) ++
          e.main_screen.meta.drop (e.active_rows - S)).length = e.height := by
        rw [List.length_append, List.length_take, List.length_drop,
          List.length_drop, hm]
        omega
      rw [shiftZero_eq _ (by exact halt) (by dsimp only; exact hdataLen)
        (by dsimp only; exact hmetaLen) (by dsimp only; omega)]
      dsimp only
      rw [shiftCursor_eq _ _ (by dsimp only; omega)]
      refine ⟨rfl, ?_, rfl, rfl, rfl, rfl⟩
      intro k hk
      dsimp only at hk ⊢
      have hk2 : k < e.active_rows - S := hk
      have hwk : e.width * k + e.width ≤ e.width * (e.active_rows - S) := by
        have h1 : e.width * (k + 1) ≤ e.width * (e.active_rows - S) :=
          Nat.mul_le_mul_left _ (by omega)
        have h2 : e.width * (k + 1) = e.width * k + e.width := by ring
        omega
      -- data correspondence
      have hrow : rowSlice
          ((((e.main_screen.data.drop (e.width * S)).take
              (e.width * e.active_rows - e.width * S) ++
            e.main_screen.data.drop
              (e.width * e.active_rows - e.width * S)).take
            (e.width * (e.active_rows - S)) ++
          List.replicate (e.width * e.height -
            e.width * (e.active_rows - S)) 0) ++
          ((e.main_screen.data.drop (e.width * S)).take
              (e.width * e.active_rows - e.width * S) ++
            e.main_screen.data.drop
              (e.width * e.active_rows - e.width * S)).drop
            (e.width * e.height))
          e.width k = rowSlice e.main_screen.data e.width (S + k) := by
        rw [rowSlice_append_left _ _ _ _ (by
          rw [List.length_append, List.length_take, hdataLen,
            List.length_replicate]
          omega)]
        rw [rowSlice_append_left _ _ _ _ (by
          rw [List.length_take, hdataLen]
          omega)]
        rw [rowSlice_take _ _ _ _ (by omega)]
        rw [rowSlice_append_left _ _ _ _ (by
          rw [List.length_take, List.length_drop, hd]
          omega)]
        rw [rowSlice_take _ _ _ _ (by omega)]
        rw [rowSlice_drop]
      -- metadata correspondence
      have hmeta : ((((e.main_screen.meta.drop S).take (e.active_rows - S) ++
            e.main_screen.meta.drop (e.active_rows - S)).take
            (e.active_rows - S) ++
          List.replicate (e.height - (e.active_rows - S)) none) ++
          ((e.main_screen.meta.drop S).take (e.active_rows - S) ++
            e.main_screen.meta.drop (e.active_rows - S)).drop
            e.height).getD k none =
          e.main_screen.meta.getD (S + k) none := by
        rw [getD_append_left_meta _ _ _ (by
          rw [List.length_append, List.length_take, hmetaLen,
            List.length_replicate]
          omega)]
        rw [getD_append_left_meta _ _ _ (by
          rw [List.length_take, hmetaLen]
          omega)]
        rw [getD_take_meta _ _ _ hk2]
        rw [getD_append_left_meta _ _ _ (by
          rw [List.length_take, List.length_drop, hm]
          omega)]
        rw [getD_take_meta _ _ _ hk2, getD_drop_meta]
      unfold promptOffAt
      dsimp only
      rw [hrow, hmeta]

/-- A matching shadow also reports `full_update = false`. -/
theorem update_fu_false (b : ScreenBuf) (ar w h : Nat) (cx cy : Int)
    (ms : Screen) (altS : Option Screen) (pd : Pdelim) (np : List UStr)
    (hw : b.width = some w) (hh : b.height = some h)
    (hf : b.full_update = false) (haltS : b.alt_screen = altS) :
    (b.update ar w h cx cy ms altS pd np false).2.full_update = false := by
  simp only [ScreenBuf.update, hw, hh, hf, haltS]
  cases altS <;> simp [haltS]

/-- The ScreenBuf shadow agrees with the terminal's current screen,
cursor and dimensions, nothing is pending for deletion, and the scroll
delta is empty — the state right after a normal-mode
`update_callback`. -/
def BufMatches (e : Emu) : Prop :=
  e.screen_buf.delete_blob_ids = [] ∧
  e.screen_buf.width = some e.width ∧
  e.screen_buf.height = some e.height ∧
  e.screen_buf.full_update = false ∧
  e.screen_buf.cursorx = some e.cursor_x ∧
  e.screen_buf.cursory = some e.cursor_y ∧
  e.screen_buf.main_screen = some e.main_screen ∧
  e.screen_buf.alt_screen =
    (if e.alt_mode then some e.alt_screen else none) ∧
  e.screen_buf.last_scroll_count = e.screen_buf.current_scroll_count

/-- With nothing pending for deletion, the flush phase does nothing. -/
theorem cbFlush_eq (e : Emu) (hid : e.screen_buf.delete_blob_ids = []) :
    cbFlush e = e := by
  unfold cbFlush
  rw [if_neg (by simp [hid])]

/-- In normal mode the flush phase always leaves an empty deletion
list; only `events` and that list change. -/
theorem cbFlush_out (e : Emu) (hnote : e.note_cells = none) :
    (cbFlush e).screen_buf = { e.screen_buf with delete_blob_ids := [] } ∧
    (cbFlush e).main_screen = e.main_screen ∧
    (cbFlush e).alt_screen = e.alt_screen ∧
    (cbFlush e).active_rows = e.active_rows ∧
    (cbFlush e).width = e.width ∧
    (cbFlush e).height = e.height ∧
    (cbFlush e).cursor_x = e.cursor_x ∧
    (cbFlush e).cursor_y = e.cursor_y ∧
    (cbFlush e).pdelim = e.pdelim ∧
    (cbFlush e).note_cells = e.note_cells ∧
    (cbFlush e).alt_mode = e.alt_mode := by
  unfold cbFlush
  split_ifs with h1
  · exact ⟨rfl, rfl, rfl, rfl, rfl, rfl, rfl, rfl, rfl, rfl, rfl⟩
  · have hid : e.screen_buf.delete_blob_ids = [] := by
      by_cases h2 : e.screen_buf.delete_blob_ids = []
      · exact h2
      · exact absurd ⟨by simp [hnote], h2⟩ h1
    refine ⟨?_, rfl, rfl, rfl, rfl, rfl, rfl, rfl, rfl, rfl, rfl⟩
    calc e.screen_buf
        = { e.screen_buf with
            delete_blob_ids := e.screen_buf.delete_blob_ids } := rfl
      _ = { e.screen_buf with delete_blob_ids := [] } := by rw [hid]

/-- In normal, non-reconnecting mode the row phase replaces the shadow
with the refreshed one and appends exactly one `row_update` event. -/
theorem cbRow_out (e : Emu) (hnote : e.note_cells = none) :
    (cbRow e false).screen_buf =
      (e.screen_buf.update e.active_rows e.width e.height e.cursor_x
        e.cursor_y e.main_screen
        (if e.alt_mode then some e.alt_screen else none)
        e.pdelim [] false).1 ∧
    (cbRow e false).events = e.events ++ [Event.row_update e.alt_mode
      (e.screen_buf.update e.active_rows e.width e.height e.cursor_x
        e.cursor_y e.main_screen
        (if e.alt_mode then some e.alt_screen else none)
        e.pdelim [] false).2.full_update
      e.active_rows e.width e.height e.cursor_x e.cursor_y
      (pre_offset_len e.pdelim)
      (e.screen_buf.update e.active_rows e.width e.height e.cursor_x
        e.cursor_y e.main_screen
        (if e.alt_mode then some e.alt_screen else none)
        e.pdelim [] false).2.update_rows
      (e.screen_buf.update e.active_rows e.width e.height e.cursor_x
        e.cursor_y e.main_screen
        (if e.alt_mode then some e.alt_screen else none)
        e.pdelim [] false).2.update_scroll] ∧
    (cbRow e false).main_screen = e.main_screen ∧
    (cbRow e false).alt_screen = e.alt_screen ∧
    (cbRow e false).active_rows = e.active_rows ∧
    (cbRow e false).width = e.width ∧
    (cbRow e false).height = e.height ∧
    (cbRow e false).cursor_x = e.cursor_x ∧
    (cbRow e false).cursor_y = e.cursor_y ∧
    (cbRow e false).pdelim = e.pdelim ∧
    (cbRow e false).note_cells = e.note_cells ∧
    (cbRow e false).alt_mode = e.alt_mode := by
  unfold cbRow
  rw [if_pos (Or.inl (by simp [hnote]))]
  simp only [hnote, Option.isSome_none, Bool.false_eq_true, if_false]
  split_ifs with h1 <;>
    exact ⟨rfl, rfl, rfl, rfl, rfl, rfl, rfl, rfl, rfl, rfl, rfl, rfl⟩

/-- In normal mode the notebook phase does nothing. -/
theorem cbNote_eq (e : Emu) (hnote : e.note_cells = none) (r : Bool) :
    cbNote e r = e := by
  unfold cbNote
  rw [if_neg (by simp [hnote])]

/-- In normal mode, `update_callback` only touches the scroll buffers,
the event log and the output buffer: every screen-state field
survives. -/
theorem update_callback_fields (e : Emu) (hnote : e.note_cells = none) :
    (e.update_callback "").main_screen = e.main_screen ∧
    (e.update_callback "").alt_screen = e.alt_screen ∧
    (e.update_callback "").active_rows = e.active_rows ∧
    (e.update_callback "").width = e.width ∧
    (e.update_callback "").height = e.height ∧
    (e.update_callback "").cursor_x = e.cursor_x ∧
    (e.update_callback "").cursor_y = e.cursor_y ∧
    (e.update_callback "").pdelim = e.pdelim ∧
    (e.update_callback "").note_cells = e.note_cells ∧
    (e.update_callback "").alt_mode = e.alt_mode := by
  obtain ⟨-, f1, f2, f3, f4, f5, f6, f7, f8, f9, f10⟩ :=
    cbFlush_out e hnote
  obtain ⟨-, -, r1, r2, r3, r4, r5, r6, r7, r8, r9, r10⟩ :=
    cbRow_out (cbFlush e) (by rw [f9]; exact hnote)
  unfold Emu.update_callback
  have hrec : (("" : String) != "") = false := by simp
  rw [hrec, cbNote_eq _ (by rw [r9, f9]; exact hnote) false]
  rw [r1, r2, r3, r4, r5, r6, r7, r8, r9, r10]
  exact ⟨f1, f2, f3, f4, f5, f6, f7, f8, f9, f10⟩

/-- The first normal-mode `update_callback` leaves the shadow matching
the live state. -/
theorem update_callback_matches (e : Emu) (hnote : e.note_cells = none) :
    BufMatches (e.update_callback "") := by
  obtain ⟨fb, f1, f2, f3, f4, f5, f6, f7, f8, f9, f10⟩ :=
    cbFlush_out e hnote
  obtain ⟨rb, -, r1, r2, r3, r4, r5, r6, r7, r8, r9, r10⟩ :=
    cbRow_out (cbFlush e) (by rw [f9]; exact hnote)
  unfold Emu.update_callback
  have hrec : (("" : String) != "") = false := by simp
  rw [hrec, cbNote_eq _ (by rw [r9, f9]; exact hnote) false]
  unfold BufMatches
  rw [rb, fb, r1, r2, r4, r5, r6, r7, r10,
    f1, f2, f3, f4, f5, f6, f7, f8, f10]
  obtain ⟨p1, p2, p3, p4, p5, p6, p7, p8, -, p10⟩ :=
    update_post_fields { e.screen_buf with delete_blob_ids := [] }
      e.active_rows e.width e.height e.cursor_x e.cursor_y e.main_screen
      (if e.alt_mode then some e.alt_screen else none) e.pdelim []
  exact ⟨by rw [p10], p1, p2, p3, p4, p5, p6, p7, p8⟩

/-- A normal-mode `update_callback` on a matching state emits exactly
one `row_update` event, with `full_update` false and empty deltas. -/
theorem update_callback_of_matches (e : Emu) (hnote : e.note_cells = none)
    (hm : BufMatches e) :
    (e.update_callback "").events = e.events ++
      [Event.row_update e.alt_mode false e.active_rows e.width e.height
        e.cursor_x e.cursor_y (pre_offset_len e.pdelim) [] []] := by
  obtain ⟨hid, hw, hh, hf, hcx, hcy, hms, haltS, hlc⟩ := hm
  have hempty := update_empty_of_matching e.screen_buf e.active_rows
    e.width e.height e.cursor_x e.cursor_y e.main_screen
    (if e.alt_mode then some e.alt_screen else none) e.pdelim []
    hw hh hf hcx hcy hms haltS hlc
  have hfu := update_fu_false e.screen_buf e.active_rows e.width e.height
    e.cursor_x e.cursor_y e.main_screen
    (if e.alt_mode then some e.alt_screen else none) e.pdelim []
    hw hh hf haltS
  obtain ⟨-, r2, -, -, -, -, -, -, -, -, r9, -⟩ :=
    cbRow_out (cbFlush e) (by rw [(cbFlush_eq e hid) ]; exact hnote)
  unfold Emu.update_callback
  have hrec : (("" : String) != "") = false := by simp
  rw [hrec, cbNote_eq _ (by rw [r9, cbFlush_eq e hid]; exact hnote) false]
  rw [cbFlush_eq e hid] at r2
  rw [cbFlush_eq e hid, r2, hempty.1, hempty.2, hfu]

/-- An `update` from a state whose shadow matches and whose screen has
no retirable prompt row emits exactly the one empty `row_update`. -/
theorem update_second (e1 e2 : Emu) (hnote1 : e1.note_cells = none)
    (hm1 : BufMatches e1)
    (hP : e1.alt_mode = true ∨ e1.active_rows = 0 ∨
      findPromptRow e1.main_screen e1.width e1.pdelim
        (e1.active_rows - 1) = 0)
    (h2 : e1.update = .ok e2) :
    e2.events = e1.events ++
      [Event.row_update e1.alt_mode false e1.active_rows e1.width e1.height
        e1.cursor_x e1.cursor_y (pre_offset_len e1.pdelim) [] []] := by
  unfold Emu.update at h2
  dsimp only at h2
  by_cases halt1 : e1.alt_mode = true
  · rw [if_neg (by simp [halt1])] at h2
    simp only [pure_bind, Except.ok.injEq] at h2
    subst h2
    exact update_callback_of_matches { e1 with needs_updating := false }
      hnote1 hm1
  · rw [if_pos (by simp [halt1])] at h2
    have hz : ({ e1 with needs_updating := false } : Emu).scroll_screen
        none = .ok { e1 with needs_updating := false } := by
      apply scroll_screen_zero _ (by exact hnote1)
      rcases hP with h | h | h
      · exact absurd h halt1
      · exact Or.inl (by exact h)
      · exact Or.inr (by exact h)
    rw [hz] at h2
    simp only [Bind.bind, Except.bind, Except.ok.injEq] at h2
    subst h2
    exact update_callback_of_matches { e1 with needs_updating := false }
      hnote1 hm1

/-- C7 (amended): in normal (non-notebook) mode, the callback always
fires once per `update`, so a second `update` with no intervening pty
input emits exactly one `row_update` event, with `full_update` false
and empty row and scroll deltas (rather than no event at all). -/
theorem C7_second_update_single_row_update (e0 e1 e2 : Emu)
    (hnote : e0.note_cells = none)
    (hd : e0.main_screen.data.length = e0.width * e0.height)
    (hm : e0.main_screen.meta.length = e0.height)
    (har : e0.active_rows ≤ e0.height)
    (h1 : e0.update = .ok e1) (h2 : e1.update = .ok e2) :
    e2.events = e1.events ++
      [Event.row_update e1.alt_mode false e1.active_rows e1.width e1.height
        e1.cursor_x e1.cursor_y (pre_offset_len e1.pdelim) [] []] := by
  unfold Emu.update at h1
  dsimp only at h1
  by_cases halt : e0.alt_mode = true
  · rw [if_neg (by simp [halt])] at h1
    simp only [pure_bind, Except.ok.injEq] at h1
    subst h1
    obtain ⟨q1, q2, q3, q4, q5, q6, q7, q8, q9, q10⟩ :=
      update_callback_fields { e0 with needs_updating := false }
        (by exact hnote)
    refine update_second _ e2 ?_ ?_ ?_ h2
    · rw [q9]
      exact hnote
    · exact update_callback_matches _ (by exact hnote)
    · exact Or.inl (by rw [q10]; exact halt)
  · rw [Bool.not_eq_true] at halt
    rw [if_pos (by simp [halt])] at h1
    rcases hscr : ({ e0 with needs_updating := false } : Emu).scroll_screen
        none with err | m1
    · rw [hscr] at h1
      exact absurd h1 (by simp [Bind.bind, Except.bind])
    · rw [hscr] at h1
      simp only [Bind.bind, Except.bind, Except.ok.injEq] at h1
      subst h1
      have key : m1.note_cells = none ∧
          (m1.active_rows = 0 ∨ findPromptRow m1.main_screen m1.width
            m1.pdelim (m1.active_rows - 1) = 0) := by
        by_cases har0 : e0.active_rows = 0
        · have hz := scroll_screen_zero { e0 with needs_updating := false }
            (by exact hnote) (Or.inl (by exact har0))
          have hm1eq : m1 = { e0 with needs_updating := false } := by
            have := hscr.symm.trans hz
            simpa using this
          subst hm1eq
          exact ⟨by exact hnote, Or.inl (by exact har0)⟩
        · by_cases hs0 : findPromptRow e0.main_screen e0.width e0.pdelim
              (e0.active_rows - 1) = 0
          · have hz := scroll_screen_zero
              { e0 with needs_updating := false } (by exact hnote)
              (Or.inr (by exact hs0))
            have hm1eq : m1 = { e0 with needs_updating := false } := by
              have := hscr.symm.trans hz
              simpa using this
            subst hm1eq
            exact ⟨by exact hnote, Or.inr (by exact hs0)⟩
          · obtain ⟨ha, hcorr, hwid, hpdl, hntc, halm⟩ :=
              scroll_screen_shift { e0 with needs_updating := false } m1
                (by exact halt) (by exact hnote) (by exact hd) (by exact hm)
                (by exact har) (by exact har0) hscr
            dsimp only at ha hcorr hwid hpdl hntc
            have hfle := findPromptRow_le e0.main_screen e0.width e0.pdelim
              (e0.active_rows - 1)
            refine ⟨by rw [hntc]; exact hnote, Or.inr ?_⟩
            rw [hwid, hpdl]
            apply findPromptRow_zero
            intro i hi1 hi2
            have hiA : i < m1.active_rows := by omega
            have hc := hcorr i hiA
            rw [hc]
            exact findPromptRow_max e0.main_screen e0.width e0.pdelim
              (e0.active_rows - 1) _ (by omega) (by omega)
      obtain ⟨hnc1, hP⟩ := key
      obtain ⟨q1, q2, q3, q4, q5, q6, q7, q8, q9, q10⟩ :=
        update_callback_fields m1 hnc1
      refine update_second _ e2 ?_ ?_ ?_ h2
      · rw [q9]
        exact hnc1
      · exact update_callback_matches m1 hnc1
      · rcases hP with h | h
        · exact Or.inr (Or.inl (by rw [q3]; exact h))
        · refine Or.inr (Or.inr ?_)
          rw [q1, q3, q4, q8]
          exact h

/-- C7 counterexample: the claim says an `update` with no intervening
pty input produces no callback events (beyond the first call's
full-update flush); but on a fresh terminal the second `update` still
grows the event log from 1 to 2 — a `row_update` event is emitted on
every normal-mode callback, just with empty deltas. -/
theorem C7_counterexample :
    ((Emu.init 2 3 "k" none).update.bind Emu.update).map
      (fun e => e.events.length) = .ok 2 := by
  rfl

/-- C7 witness: two updates of a small fresh terminal; the second emits
exactly the single empty `row_update`. -/
theorem C7_second_update_single_row_update_witness :
    ∃ e1 e2, (Emu.init 2 3 "k" none).update = .ok e1 ∧
      e1.update = .ok e2 ∧
      e2.events = e1.events ++
        [Event.row_update e1.alt_mode false e1.active_rows e1.width
          e1.height e1.cursor_x e1.cursor_y (pre_offset_len e1.pdelim)
          [] []] :=
  ⟨_, _, rfl, rfl,
    C7_second_update_single_row_update (Emu.init 2 3 "k" none) _ _ rfl
      (by decide) (by decide) (by decide) rfl rfl⟩

/-- C8 witness: a 33-byte buffer is discarded, and a concrete write
keeps the pending buffer within 32 bytes. -/
theorem C8_escape_buffer_discarded_witness :
    (Emu.init 2 3 "k" none).escape (List.replicate 33 65) =
      .ok (Emu.init 2 3 "k" none, []) ∧
    ∃ t2, Term.write jl0 none st0 (Term.init 2 3 "k" none) [27, 65] =
        .ok t2 ∧ t2.buf.length ≤ 32 := by
  refine ⟨C8_escape_buffer_discarded.1 _ _ (by decide), ?_⟩
  obtain ⟨t2, ht2⟩ : ∃ t2,
      Term.write jl0 none st0 (Term.init 2 3 "k" none) [27, 65] = .ok t2 :=
    ⟨_, rfl⟩
  exact ⟨t2, ht2,
    C8_escape_buffer_discarded.2 jl0 none st0 _ _ _ (by decide) ht2⟩

end GT
